import Mathlib

/-!
Verification of the pwsniffer failure-analysis pipeline.

This file shallowly embeds the deterministic core of the repository and the
control flow of its reasoning stages, and proves or refutes the frozen claims
about them.

Modelling conventions:
* Text is modelled as `List Char` (`Str`); JavaScript string operations
  (`toLowerCase`, `includes`, `trim`, template interpolation) are translated to
  executable functions on `Str`.  Regular-expression tests in the source are
  all over literal fragments (optionally separated by `.*`); they are
  translated to substring / in-order-substring tests.
* JavaScript numbers are modelled as `ℚ` for scores, confidences and
  timestamps, and as `ℕ` for durations and line/column numbers.  The source
  uses binary floating point; none of the verified comparisons sits on a
  boundary where rounding differs from exact rational arithmetic.
* JavaScript truthiness of `x || y` is translated explicitly: `0`, `""`,
  `undefined` and `null` are falsy, objects are truthy (`jsOr*` helpers).
* The external reasoning capability (LLM calls), and repository helpers whose
  internals no claim depends on (stack-trace location extraction, free-text
  selector extraction, DOM-based selector suggestion, full-locator
  extraction), are passed as explicit function parameters; theorems quantify
  over them.  `try { llm } catch { fallback }` becomes a match on
  `Except String α`.
* Asynchronous code has no observable concurrency in the pipeline (results
  are written back by index); it is modelled as pure sequential code.
-/

namespace PWSniffer

/- Batteries marks the `Rat` arithmetic operations `@[irreducible]`; restore
semireducibility for this file so that concrete model values evaluate under
`decide` and `rfl` (the kernel ignores reducibility attributes either way). -/
attribute [local semireducible] Rat.add Rat.mul Rat.sub Rat.inv Rat.ofScientific

/-- Character strings, modelled as lists of characters. -/
abbrev Str := List Char

/-- Convert a Lean string literal to the model representation. -/
def strOf (s : String) : Str := s.data

/-- JavaScript `toLowerCase` (ASCII). -/
def lowerStr (s : Str) : Str := s.map Char.toLower

/-- Does `pat` occur at the very start of `s`? -/
def hasPrefixChars : Str → Str → Bool
  | _, [] => true
  | [], _ :: _ => false
  | c :: s, p :: ps => c == p && hasPrefixChars s ps

/-- JavaScript `s.includes(pat)`: does `pat` occur somewhere in `s`? -/
def hasSub : Str → Str → Bool
  | [], pat => hasPrefixChars [] pat
  | c :: t, pat => hasPrefixChars (c :: t) pat || hasSub t pat

/-- The suffix of `s` following the first occurrence of `pat`, if any. -/
def afterFirst (pat : Str) : Str → Option Str
  | [] => if hasPrefixChars [] pat then some [] else none
  | c :: t =>
      if hasPrefixChars (c :: t) pat then some ((c :: t).drop pat.length)
      else afterFirst pat t

/-- Do the fragments `pats` occur in `s`, in order, without overlapping?  This
is the matching semantics of a regular expression built from literal fragments
separated by `.*` (first occurrences are consumed greedily, which for literal
fragments decides the same language). -/
def seqWithin (s : Str) : List Str → Bool
  | [] => true
  | p :: ps =>
      match afterFirst p s with
      | some rest => seqWithin rest ps
      | none => false

/-- Split a string at newline characters (JavaScript regexes without the `s`
flag do not let `.` cross a line terminator). -/
def splitLines (s : Str) : List Str :=
  (s.foldr (fun c acc =>
    match acc with
    | [] => if c = '\n' then [[], []] else [[c]]
    | l :: ls => if c = '\n' then [] :: (l :: ls) else (c :: l) :: ls) [[]])

/-- Test of a regular expression `/f₀.*f₁.*…/` over literal fragments: some
line of `s` contains the fragments in order. -/
def seqOnLine (s : Str) (pats : List Str) : Bool :=
  (splitLines s).any (fun l => seqWithin l pats)

/-- Test of an alternation `/p₀|p₁|…/` of literal fragments. -/
def anySub (s : Str) (pats : List Str) : Bool :=
  pats.any (fun p => hasSub s p)

/-- Fuel-bounded scanner behind `countSub`; the scanned string shrinks by at
least one character per step, so `fuel = s.length` is exact. -/
def countSubAux (pat : Str) : Nat → Str → Nat
  | 0, _ => 0
  | _, [] => 0
  | fuel + 1, c :: t =>
      if hasPrefixChars (c :: t) pat ∧ pat ≠ [] then
        1 + countSubAux pat fuel (t.drop (pat.length - 1))
      else
        countSubAux pat fuel t

/-- Number of non-overlapping occurrences of `pat` in `s` (JavaScript
`(s.match(/pat/g) || []).length` for a literal pattern). -/
def countSub (pat s : Str) : Nat := countSubAux pat s.length s

/-- A whitespace character, as stripped by JavaScript `trim`. -/
def wsChar (c : Char) : Bool := c = ' ' || c = '\t' || c = '\n' || c = '\r'

/-- JavaScript `s.trim()`. -/
def trimStr (s : Str) : Str :=
  ((s.dropWhile wsChar).reverse.dropWhile wsChar).reverse

/-- JavaScript `parts.join(sep)`. -/
def joinSep (sep : Str) : List Str → Str
  | [] => []
  | [x] => x
  | x :: y :: rest => x ++ sep ++ joinSep sep (y :: rest)

/-- Decimal rendering of a natural number, for template interpolation. -/
def natStr (n : Nat) : Str := (Nat.repr n).data

/-- JavaScript `a || b` on optional numbers: `0` and `undefined` are falsy. -/
def jsOrNat (a b : Option Nat) : Option Nat :=
  match a with
  | some x => if x = 0 then b else some x
  | none => b

/-- JavaScript `a || d` producing a number, `0` and `undefined` falsy. -/
def jsNatOr (a : Option Nat) (d : Nat) : Nat :=
  match a with
  | some x => if x = 0 then d else x
  | none => d

/-- JavaScript `a || b` on optional rationals (timestamps): `0` falsy. -/
def jsOrQ (a b : Option ℚ) : Option ℚ :=
  match a with
  | some x => if x = 0 then b else some x
  | none => b

/-- JavaScript `a || b` on optional strings: `""` and `undefined` are falsy. -/
def jsOrStr (a b : Option Str) : Option Str :=
  match a with
  | some s => if s = [] then b else some s
  | none => b

/-- JavaScript `a || d` producing a string, `""` and `undefined` falsy. -/
def jsStrOr (a : Option Str) (d : Str) : Str :=
  match a with
  | some s => if s = [] then d else s
  | none => d

/-! ## Data model (`src/types/schemas.ts`) -/

/-- The closed set of failure categories (`FailureCategorySchema`). -/
inductive Category where
  | selector_not_found
  | timeout
  | assertion_failed
  | navigation_error
  | auth_error
  | unknown
  deriving DecidableEq, Repr

/-- `TestFailureFactsSchema`: one failed/timed-out test result. -/
structure TestFailureFacts where
  testName : Str
  file : Str
  failedStep : Str
  error : Str
  timeout : Option Nat
  lineNumber : Option Nat
  columnNumber : Option Nat
  stackTrace : Option (List Str)
  deriving DecidableEq, Repr

/-- `FailureCategorySchema`: classification verdict for one failure. -/
structure FailureCategory where
  category : Category
  confidence : ℚ
  reasoning : Str
  deriving DecidableEq, Repr

/-- `ArtifactSignalsSchema`: UI-reality assessment for one failure. -/
structure ArtifactSignals where
  uiState : Str
  pageState : Str
  blockingFactors : List Str
  deriving DecidableEq, Repr

/-- Quality ratings of `SelectorAnalysisSchema`. -/
inductive Quality where
  | excellent
  | good
  | fragile
  | poor
  deriving DecidableEq, Repr

/-- `SelectorAnalysisSchema`: quality verdict for a selector. -/
structure SelectorAnalysis where
  selectorQuality : Quality
  qualityScore : ℚ
  issues : List Str
  suggestedSelector : Option Str
  suggestionReason : Option Str
  confidence : ℚ
  deriving DecidableEq, Repr

/-- Verdicts of `FinalDiagnosisSchema`. -/
inductive Verdict where
  | test_issue
  | app_issue
  | unclear
  deriving DecidableEq, Repr

/-- Urgency levels of `FinalDiagnosisSchema`. -/
inductive Urgency where
  | low
  | medium
  | high
  deriving DecidableEq, Repr

/-- `FinalDiagnosisSchema`: the verdict for one failure.  Note that this
schema has no `confidence` field. -/
structure FinalDiagnosis where
  verdict : Verdict
  recommendedAction : Str
  urgency : Urgency
  reason : Str
  deriving DecidableEq, Repr

/-- `SolutionSuggestionSchema`: concrete fix for one failure. -/
structure SolutionSuggestion where
  suggestedCode : Option Str
  originalCode : Option Str
  explanation : Str
  steps : List Str
  alternativeApproaches : Option (List Str)
  confidence : ℚ
  deriving DecidableEq, Repr

/-! ## Report parser (`src/tools/parseReport.ts`)

The Playwright report tree.  Optional arrays (`suites?`, `specs?`, `tests?`,
`results?`, `steps?`) are modelled as plain lists — the source guards each
with a truthiness check before iterating, so a missing array behaves exactly
like an empty one. -/

/-- Result status of a Playwright test result. -/
inductive RStatus where
  | passed
  | failed
  | skipped
  | timedOut
  deriving DecidableEq, Repr

/-- An error object `{message?, stack?}` attached to a result or step. -/
structure PError where
  message : Option Str
  stack : Option Str
  deriving DecidableEq, Repr

/-- `PlaywrightStep`: a step, possibly with nested steps. -/
inductive PStep where
  | mk : Option Str → Option PError → List PStep → PStep
  deriving Repr

/-- Title of a step. -/
def PStep.title : PStep → Option Str
  | .mk t _ _ => t

/-- Error of a step. -/
def PStep.error : PStep → Option PError
  | .mk _ e _ => e

/-- Nested steps of a step. -/
def PStep.steps : PStep → List PStep
  | .mk _ _ s => s

/-- `PlaywrightTestResult`. -/
structure PResult where
  status : Option RStatus
  duration : Option Nat
  steps : List PStep
  error : Option PError
  deriving Repr

/-- `PlaywrightTest`. -/
structure PTest where
  title : Option Str
  line : Option Nat
  column : Option Nat
  results : List PResult
  deriving Repr

/-- `PlaywrightSpec`. -/
structure PSpec where
  title : Option Str
  file : Option Str
  line : Option Nat
  column : Option Nat
  tests : List PTest
  deriving Repr

/-- `PlaywrightSuite`: a suite with specs and nested suites. -/
inductive PSuite where
  | mk : Option Str → List PSpec → List PSuite → PSuite
  deriving Repr

/-- `PlaywrightReport`. -/
structure PlaywrightReport where
  suites : List PSuite
  deriving Repr

/-- Result of `extractFileLocation` (`src/tools/extractStackTrace.ts`).  The
extraction itself is kept abstract — no claim depends on its internals. -/
structure FileLocation where
  file : Option Str
  line : Option Nat
  column : Option Nat
  deriving DecidableEq, Repr

/-- `findFailingStep`: recursively find the first step (depth-first,
first-match) that has an error. -/
def findFailingStep : List PStep → Option PStep
  | [] => none
  | PStep.mk t e ss :: rest =>
      if e.isSome then some (PStep.mk t e ss)
      else
        match findFailingStep ss with
        | some f => some f
        | none => findFailingStep rest

/-- The qualification test applied inside `traverseSuiteForFailures`:
`result.status === 'failed' || result.status === 'timedOut'`. -/
def resultIsFailedStatus (r : PResult) : Bool :=
  r.status == some RStatus.failed || r.status == some RStatus.timedOut

/-- The guard at the top of `extractFailureFacts`:
`!result.error && !result.steps?.some(s => s.error)` returns `null`.  Note the
step check looks only at the top-level steps, not nested ones. -/
def resultHasDirectError (r : PResult) : Bool :=
  r.error.isSome || r.steps.any (fun s => s.error.isSome)

/-- Body of `extractFailureFacts` once the guard has passed, parameterised by
the stack-trace location extractor and stack-line extractor
(`src/tools/extractStackTrace.ts`, kept abstract). -/
def factOf (locOf : Str → FileLocation) (stackOf : Str → List Str)
    (spec : PSpec) (test : PTest) (result : PResult) : TestFailureFacts :=
  let failingStep := findFailingStep result.steps
  let err : PError :=
    (result.error.orElse (fun _ => failingStep.bind PStep.error)).getD
      ⟨some (strOf "Unknown error"), none⟩
  let errorMessage := jsStrOr err.message (strOf "Unknown error")
  let errorStack := jsStrOr err.stack errorMessage
  let location := locOf errorStack
  let stackTrace := stackOf errorStack
  { testName := jsStrOr spec.title (jsStrOr test.title (strOf "Unknown test"))
    file := jsStrOr (jsOrStr location.file spec.file) (strOf "Unknown file")
    failedStep := jsStrOr (failingStep.bind PStep.title) (strOf "Unknown step")
    error := errorMessage
    timeout := jsOrNat result.duration none
    lineNumber := jsOrNat location.line (jsOrNat spec.line test.line)
    columnNumber := jsOrNat location.column (jsOrNat spec.column test.column)
    stackTrace := if stackTrace.length > 0 then some stackTrace else none }

/-- `extractFailureFacts`: extract failure facts from a single test result,
or `null` when neither a result-level error nor a direct step error exists. -/
def extractFailureFacts (locOf : Str → FileLocation) (stackOf : Str → List Str)
    (spec : PSpec) (test : PTest) (result : PResult) : Option TestFailureFacts :=
  if resultHasDirectError result then
    some (factOf locOf stackOf spec test result)
  else
    none

/-- Failures contributed by the specs of one suite: for each spec, test and
result with status `failed`/`timedOut`, the extracted facts if non-null. -/
def specFailures (locOf : Str → FileLocation) (stackOf : Str → List Str)
    (spec : PSpec) : List TestFailureFacts :=
  spec.tests.flatMap (fun test =>
    test.results.filterMap (fun result =>
      if resultIsFailedStatus result then
        extractFailureFacts locOf stackOf spec test result
      else
        none))

/-- `traverseSuiteForFailures`: specs of the suite first, then nested suites,
then sibling suites. -/
def traverseSuiteForFailures (locOf : Str → FileLocation)
    (stackOf : Str → List Str) : List PSuite → List TestFailureFacts
  | [] => []
  | PSuite.mk _ specs subs :: rest =>
      specs.flatMap (specFailures locOf stackOf) ++
      traverseSuiteForFailures locOf stackOf subs ++
      traverseSuiteForFailures locOf stackOf rest

/-- `parsePlaywrightReport`: all failures of the report, in traversal order. -/
def parsePlaywrightReport (locOf : Str → FileLocation)
    (stackOf : Str → List Str) (report : PlaywrightReport) :
    List TestFailureFacts :=
  traverseSuiteForFailures locOf stackOf report.suites

/-- Does any step of the list, recursively, carry an error?  (Spec-side
notion used by the claimed qualification condition.) -/
def anyStepErrorDeep : List PStep → Bool
  | [] => false
  | PStep.mk _ e ss :: rest =>
      e.isSome || anyStepErrorDeep ss || anyStepErrorDeep rest

/-- Modelled from the spec (claim C2): a result qualifies as a failure iff
its status is failed or timedOut, or any of its steps recursively carries an
error. -/
def claimedQualifies (r : PResult) : Bool :=
  resultIsFailedStatus r || anyStepErrorDeep r.steps

/-- The qualification condition the code actually applies: failed/timed-out
status, and a result-level error or a direct (top-level) step error. -/
def codeQualifies (r : PResult) : Bool :=
  resultIsFailedStatus r && resultHasDirectError r

/-- The effective error message the code computes for a qualifying result:
the result-level error if present, else the first depth-first failing step's
error, else the `"Unknown error"` sentinel (also used when the chosen error
object has no message). -/
def effectiveErrorMsg (r : PResult) : Str :=
  match r.error.orElse (fun _ => (findFailingStep r.steps).bind PStep.error) with
  | some e => jsStrOr e.message (strOf "Unknown error")
  | none => strOf "Unknown error"

/-- All (spec, test, result) triples of the report, in traversal order. -/
def collectResults : List PSuite → List (PSpec × PTest × PResult)
  | [] => []
  | PSuite.mk _ specs subs :: rest =>
      specs.flatMap (fun sp =>
        sp.tests.flatMap (fun te => te.results.map (fun re => (sp, te, re)))) ++
      collectResults subs ++ collectResults rest

/-! ## Pattern classification (`src/tools/classifyPatterns.ts`) -/

/-- `PatternMatchResult`. -/
structure PatternMatchResult where
  category : Category
  confidence : ℚ
  matchedPatterns : List Str
  deriving DecidableEq, Repr

/-- One scored entry of the `matches` array in `applyPatternMatching`. -/
structure PatternCandidate where
  category : Category
  score : ℚ
  patterns : List Str
  deriving DecidableEq, Repr

/-- The combined lower-cased text `error + " " + step + " " + stack`. -/
def combinedText (facts : TestFailureFacts) : Str :=
  let stackLower :=
    match facts.stackTrace with
    | some ls => lowerStr (joinSep (strOf "\n") ls)
    | none => []
  lowerStr facts.error ++ strOf " " ++ lowerStr facts.failedStep ++
    strOf " " ++ stackLower

/-- The `selector_not_found` pattern hits over the combined text. -/
def selectorMatches (combined : Str) : List Str :=
  (([
    ("/element\\(s\\) not found/i", hasSub combined (strOf "element(s) not found")),
    ("/locator\\.waitfor/i", hasSub combined (strOf "locator.waitfor")),
    ("/waiting for selector/i", hasSub combined (strOf "waiting for selector")),
    ("/timeout.*exceeded.*selector/i",
      seqOnLine combined [strOf "timeout", strOf "exceeded", strOf "selector"]),
    ("/selector.*not found/i",
      seqOnLine combined [strOf "selector", strOf "not found"]),
    ("/locator.*not found/i",
      seqOnLine combined [strOf "locator", strOf "not found"]),
    ("/getbyrole|getbytext|getbylabel|getbyplaceholder|getbyalttext|getbytitle/i",
      anySub combined [strOf "getbyrole", strOf "getbytext", strOf "getbylabel",
        strOf "getbyplaceholder", strOf "getbyalttext", strOf "getbytitle"]),
    ("/data-testid|id=|class=/i",
      anySub combined [strOf "data-testid", strOf "id=", strOf "class="])
  ] : List (String × Bool)).filter (fun p => p.2)).map (fun p => strOf p.1)

/-- The `timeout` pattern hits over the combined text. -/
def timeoutMatches (combined : Str) : List Str :=
  (([
    ("/timeout.*exceeded/i", seqOnLine combined [strOf "timeout", strOf "exceeded"]),
    ("/timed out/i", hasSub combined (strOf "timed out")),
    ("/waiting for.*timeout/i",
      seqOnLine combined [strOf "waiting for", strOf "timeout"]),
    ("/exceeded.*waiting/i", seqOnLine combined [strOf "exceeded", strOf "waiting"])
  ] : List (String × Bool)).filter (fun p => p.2)).map (fun p => strOf p.1)

/-- The `assertion_failed` pattern hits over the combined text. -/
def assertionMatches (combined : Str) : List Str :=
  (([
    ("/expect.*failed/i", seqOnLine combined [strOf "expect", strOf "failed"]),
    ("/tobevisible.*failed/i",
      seqOnLine combined [strOf "tobevisible", strOf "failed"]),
    ("/tohavetext.*failed/i",
      seqOnLine combined [strOf "tohavetext", strOf "failed"]),
    ("/tohavevalue.*failed/i",
      seqOnLine combined [strOf "tohavevalue", strOf "failed"]),
    ("/assertionerror/i", hasSub combined (strOf "assertionerror")),
    ("/expected.*but.*received/i",
      seqOnLine combined [strOf "expected", strOf "but", strOf "received"]),
    ("/expected:.*actual:/i",
      seqOnLine combined [strOf "expected:", strOf "actual:"])
  ] : List (String × Bool)).filter (fun p => p.2)).map (fun p => strOf p.1)

/-- The `navigation_error` pattern hits over the combined text. -/
def navigationMatches (combined : Str) : List Str :=
  (([
    ("/navigation.*timeout/i",
      seqOnLine combined [strOf "navigation", strOf "timeout"]),
    ("/page\\.goto/i", hasSub combined (strOf "page.goto")),
    ("/net::err/i", hasSub combined (strOf "net::err")),
    ("/404|500|502|503|504/i",
      anySub combined [strOf "404", strOf "500", strOf "502", strOf "503",
        strOf "504"]),
    ("/failed to navigate/i", hasSub combined (strOf "failed to navigate")),
    ("/navigation.*failed/i",
      seqOnLine combined [strOf "navigation", strOf "failed"]),
    ("/network.*error/i", seqOnLine combined [strOf "network", strOf "error"]),
    ("/connection.*refused/i",
      seqOnLine combined [strOf "connection", strOf "refused"])
  ] : List (String × Bool)).filter (fun p => p.2)).map (fun p => strOf p.1)

/-- The `auth_error` pattern hits over the combined text. -/
def authMatches (combined : Str) : List Str :=
  (([
    ("/unauthorized/i", hasSub combined (strOf "unauthorized")),
    ("/forbidden/i", hasSub combined (strOf "forbidden")),
    ("/401|403/i", anySub combined [strOf "401", strOf "403"]),
    ("/authentication.*failed/i",
      seqOnLine combined [strOf "authentication", strOf "failed"]),
    ("/login.*failed/i", seqOnLine combined [strOf "login", strOf "failed"]),
    ("/session.*expired/i",
      seqOnLine combined [strOf "session", strOf "expired"]),
    ("/access.*denied/i", seqOnLine combined [strOf "access", strOf "denied"]),
    ("/invalid.*credentials/i",
      seqOnLine combined [strOf "invalid", strOf "credentials"])
  ] : List (String × Bool)).filter (fun p => p.2)).map (fun p => strOf p.1)

/-- Whether `facts.timeout !== undefined && facts.timeout > 0`. -/
def hasTimeoutValue (facts : TestFailureFacts) : Bool :=
  match facts.timeout with
  | some t => decide (0 < t)
  | none => false

/-- The `matches` array built by `applyPatternMatching`, in construction
order. -/
def patternCandidates (facts : TestFailureFacts) : List PatternCandidate :=
  let errorLower := lowerStr facts.error
  let stepLower := lowerStr facts.failedStep
  let combined := combinedText facts
  let selMs := selectorMatches combined
  let sel : List PatternCandidate :=
    if selMs.length > 0 then
      [⟨Category.selector_not_found,
        (selMs.length : ℚ) * 0.15 +
          (if hasSub errorLower (strOf "element") then 0.2 else 0), selMs⟩]
    else []
  let tMs := timeoutMatches combined
  let tm : List PatternCandidate :=
    if tMs.length > 0 || hasTimeoutValue facts then
      [⟨Category.timeout,
        (tMs.length : ℚ) * 0.2 + (if hasTimeoutValue facts then 0.3 else 0), tMs⟩]
    else []
  let aMs := assertionMatches combined
  let hasExpectInStep := anySub stepLower [strOf "expect", strOf "assert"]
  let am : List PatternCandidate :=
    if aMs.length > 0 || hasExpectInStep then
      [⟨Category.assertion_failed,
        (aMs.length : ℚ) * 0.2 + (if hasExpectInStep then 0.25 else 0), aMs⟩]
    else []
  let nMs := navigationMatches combined
  let hasNavigationStep :=
    anySub stepLower [strOf "goto", strOf "navigate", strOf "reload", strOf "go("]
  let nm : List PatternCandidate :=
    if nMs.length > 0 || hasNavigationStep then
      [⟨Category.navigation_error,
        (nMs.length : ℚ) * 0.2 + (if hasNavigationStep then 0.25 else 0), nMs⟩]
    else []
  let auMs := authMatches combined
  let hasAuthStep :=
    anySub stepLower [strOf "login", strOf "auth", strOf "session",
      strOf "credential"]
  let au : List PatternCandidate :=
    if auMs.length > 0 || hasAuthStep then
      [⟨Category.auth_error,
        (auMs.length : ℚ) * 0.2 + (if hasAuthStep then 0.25 else 0), auMs⟩]
    else []
  sel ++ tm ++ am ++ nm ++ au

/-- `matches.reduce((best, current) => current.score > best.score ? current :
best)`: the first candidate of maximal score. -/
def bestCandidate : List PatternCandidate → Option PatternCandidate
  | [] => none
  | c :: rest =>
      some (rest.foldl (fun best cur => if cur.score > best.score then cur else best) c)

/-- `applyPatternMatching`: `null` when no category scored, else the best
candidate with confidence capped at `0.95`. -/
def applyPatternMatching (facts : TestFailureFacts) : Option PatternMatchResult :=
  match bestCandidate (patternCandidates facts) with
  | none => none
  | some b => some ⟨b.category, min b.score 0.95, b.patterns⟩

/-- `isHighConfidence`: confidence at least `0.8`. -/
def isHighConfidence (r : PatternMatchResult) : Bool :=
  decide ((0.8 : ℚ) ≤ r.confidence)

/-- `isMediumConfidence`: confidence in `[0.5, 0.8)`. -/
def isMediumConfidence (r : PatternMatchResult) : Bool :=
  decide ((0.5 : ℚ) ≤ r.confidence) && decide (r.confidence < (0.8 : ℚ))

/-! ## Failure classification agent (`src/agents/failureClassifier.ts`) -/

/-- `generatePatternReasoning`. -/
def generatePatternReasoning (facts : TestFailureFacts)
    (pr : PatternMatchResult) : Str :=
  let base :=
    match pr.category with
    | .selector_not_found =>
        strOf "Element or selector could not be found on the page"
    | .timeout => strOf "Operation exceeded the timeout limit"
    | .assertion_failed => strOf "An assertion (expect statement) failed"
    | .navigation_error => strOf "Page navigation failed"
    | .auth_error => strOf "Authentication or authorization failed"
    | .unknown => strOf "Unable to determine failure type"
  let n := pr.matchedPatterns.length
  base ++ strOf ". Detected " ++ natStr n ++ strOf " matching pattern" ++
    (if n > 1 then strOf "s" else []) ++
    strOf " in error message, failed step, and stack trace. Error: \"" ++
    facts.error.take 100 ++
    (if facts.error.length > 100 then strOf "..." else []) ++ strOf "\""

/-- `classifyWithLLM`, with the reasoning capability injected as `llm`: on
failure, fall back to `unknown` with confidence `0.0` and the error text. -/
def classifyWithLLM (llm : Option Category → Except Str FailureCategory)
    (hint : Option Category) : FailureCategory :=
  match llm hint with
  | .ok v => v
  | .error e =>
      ⟨Category.unknown, 0, strOf "Failed to classify: " ++ e⟩

/-- `classifyFailure`: rules first, reasoning capability second. -/
def classifyFailure (llm : Option Category → Except Str FailureCategory)
    (facts : TestFailureFacts) : FailureCategory :=
  match applyPatternMatching facts with
  | some pr =>
      if isHighConfidence pr then
        ⟨pr.category, pr.confidence, generatePatternReasoning facts pr⟩
      else if isMediumConfidence pr then
        classifyWithLLM llm (some pr.category)
      else
        classifyWithLLM llm none
  | none => classifyWithLLM llm none

/-! ## Action synthesis agent (`src/agents/actionSynthesizer.ts`) -/

/-- `ActionSynthesizerInput`. -/
structure ActionSynthesizerInput where
  failureFacts : TestFailureFacts
  failureCategory : FailureCategory
  artifactSignals : Option ArtifactSignals
  selectorAnalysis : Option SelectorAnalysis
  deriving Repr

/-- Rendering of a quality rating, for template interpolation. -/
def qualityStr : Quality → Str
  | .excellent => strOf "excellent"
  | .good => strOf "good"
  | .fragile => strOf "fragile"
  | .poor => strOf "poor"

/-- JavaScript truthiness of an optional string. -/
def jsTruthyStr (o : Option Str) : Bool :=
  match o with
  | some s => s ≠ []
  | none => false

/-- `applyHeuristics`: the eight ordered rules, first match wins. -/
def applyHeuristics (input : ActionSynthesizerInput) : Option FinalDiagnosis :=
  let cat := input.failureCategory
  let sa := input.selectorAnalysis
  -- Rule 1: navigation errors → app_issue
  if cat.category = Category.navigation_error then
    some ⟨Verdict.app_issue, strOf "investigate app", Urgency.high,
      strOf "Navigation error indicates an application issue. Check server logs, network connectivity, and application health."⟩
  -- Rule 2: auth errors → app_issue
  else if cat.category = Category.auth_error then
    some ⟨Verdict.app_issue, strOf "check environment", Urgency.high,
      strOf "Authentication error suggests an application or environment configuration issue. Verify credentials, session management, and auth service status."⟩
  else
    match input.artifactSignals with
    | some sig =>
        -- Rule 3: selector not found + page loaded + element missing
        if cat.category = Category.selector_not_found ∧
            sig.pageState = strOf "loaded" ∧
            (hasSub sig.uiState (strOf "element missing") ∨
              hasSub sig.uiState (strOf "element not found")) then
          match sa with
          | some s =>
              if s.selectorQuality = Quality.fragile ∨
                  s.selectorQuality = Quality.poor then
                some ⟨Verdict.test_issue,
                  (if jsTruthyStr s.suggestedSelector then strOf "fix selector"
                   else strOf "review selector strategy"),
                  Urgency.medium,
                  strOf "Fragile selector detected (quality: " ++
                    qualityStr s.selectorQuality ++
                    strOf "). Page loaded successfully but element not found, indicating a test selector issue. " ++
                    (match s.suggestedSelector with
                     | some sel =>
                         if sel ≠ [] then strOf "Suggested: " ++ sel else []
                     | none => [])⟩
              else
                some ⟨Verdict.test_issue, strOf "fix selector", Urgency.medium,
                  strOf "Page loaded successfully but element not found in DOM. This suggests the selector may be incorrect or the element structure changed."⟩
          | none =>
              some ⟨Verdict.test_issue, strOf "fix selector", Urgency.medium,
                strOf "Page loaded successfully but element not found in DOM. This suggests the selector may be incorrect or the element structure changed."⟩
        -- Rule 4: selector not found + blocking factors
        else if cat.category = Category.selector_not_found ∧
            sig.blockingFactors.length > 0 ∧
            ¬ sig.blockingFactors.all
              (fun f => hasSub f (strOf "No blocking factors")) then
          some ⟨Verdict.app_issue, strOf "investigate app", Urgency.high,
            strOf "Element not found but blocking factors detected: " ++
              joinSep (strOf ", ") sig.blockingFactors ++
              strOf ". This suggests the application may not be rendering correctly."⟩
        -- Rule 5: timeout + page still loading
        else if cat.category = Category.timeout ∧
            (sig.pageState = strOf "loading" ∨ sig.pageState = strOf "timeout") then
          some ⟨Verdict.app_issue, strOf "increase timeout", Urgency.medium,
            strOf "Page failed to load within timeout period. This could indicate slow network, slow application response, or resource loading issues."⟩
        -- Rule 6: assertion failed + page loaded + no error in UI state
        else if cat.category = Category.assertion_failed ∧
            sig.pageState = strOf "loaded" ∧
            ¬ hasSub sig.uiState (strOf "error") then
          some ⟨Verdict.test_issue, strOf "review test logic", Urgency.medium,
            strOf "Assertion failed but page loaded correctly. This suggests the test expectations may be incorrect or the test logic needs review."⟩
        else
          -- Rule 7: fragile selector detected
          match sa with
          | some s =>
              if s.selectorQuality = Quality.fragile ∨
                  s.selectorQuality = Quality.poor then
                some ⟨Verdict.test_issue,
                  (if jsTruthyStr s.suggestedSelector then strOf "fix selector"
                   else strOf "review selector strategy"),
                  Urgency.low,
                  strOf "Fragile selector detected (quality: " ++
                    qualityStr s.selectorQuality ++
                    strOf "). Consider using a more stable selector. " ++
                    (match s.suggestedSelector with
                     | some sel =>
                         if sel ≠ [] then strOf "Suggested: " ++ sel else []
                     | none => [])⟩
              else
                -- Rule 8: page failed to load with network/error factors
                if (sig.pageState = strOf "error" ∨
                      sig.pageState = strOf "timeout") ∧
                    sig.blockingFactors.any (fun f =>
                      hasSub f (strOf "network") ∨ hasSub f (strOf "error")) then
                  some ⟨Verdict.app_issue, strOf "investigate app", Urgency.high,
                    strOf "Page failed to load with errors: " ++
                      joinSep (strOf ", ")
                        (sig.blockingFactors.filter (fun f =>
                          hasSub f (strOf "network") ∨ hasSub f (strOf "error"))) ++
                      strOf ". This indicates an application or infrastructure issue."⟩
                else
                  none
          | none =>
              if (sig.pageState = strOf "error" ∨
                    sig.pageState = strOf "timeout") ∧
                  sig.blockingFactors.any (fun f =>
                    hasSub f (strOf "network") ∨ hasSub f (strOf "error")) then
                some ⟨Verdict.app_issue, strOf "investigate app", Urgency.high,
                  strOf "Page failed to load with errors: " ++
                    joinSep (strOf ", ")
                      (sig.blockingFactors.filter (fun f =>
                        hasSub f (strOf "network") ∨ hasSub f (strOf "error"))) ++
                    strOf ". This indicates an application or infrastructure issue."⟩
              else
                none
    | none =>
        -- Rules 3–6 and 8 need artifact signals; only rule 7 can still fire.
        match sa with
        | some s =>
            if s.selectorQuality = Quality.fragile ∨
                s.selectorQuality = Quality.poor then
              some ⟨Verdict.test_issue,
                (if jsTruthyStr s.suggestedSelector then strOf "fix selector"
                 else strOf "review selector strategy"),
                Urgency.low,
                strOf "Fragile selector detected (quality: " ++
                  qualityStr s.selectorQuality ++
                  strOf "). Consider using a more stable selector. " ++
                  (match s.suggestedSelector with
                   | some sel => if sel ≠ [] then strOf "Suggested: " ++ sel else []
                   | none => [])⟩
            else
              none
        | none => none

/-- `synthesizeAction`, with the reasoning capability injected as `llm`.

The source guard `heuristicResult && heuristicResult.confidence >= 0.8` reads
a `confidence` property that `FinalDiagnosis` does not have; the access
yields `undefined` and `undefined >= 0.8` is `false`, so the early return
never fires and the LLM is always consulted.  On LLM failure the heuristic
result (if any) is returned, else the `unclear` sentinel. -/
def synthesizeAction
    (llm : Option FinalDiagnosis → Except Str FinalDiagnosis)
    (input : ActionSynthesizerInput) : FinalDiagnosis :=
  let heuristicResult := applyHeuristics input
  match llm heuristicResult with
  | .ok v => v
  | .error e =>
      match heuristicResult with
      | some hr => hr
      | none =>
          ⟨Verdict.unclear, strOf "review failure details manually",
            Urgency.low, strOf "Unable to synthesize diagnosis: " ++ e⟩

/-! ## Artifact correlation agent (`src/agents/artifactCorrelator.ts`) -/

/-- The fields of `detectPageLoadState`'s result that the correlation
fallback reads (`state`, `networkErrors`); the remaining fields
(`loadTime`, `domContentLoadedTime`, `failedRequests`) feed only the LLM
prompt. -/
structure PageLoadStateR where
  state : Str
  networkErrors : List Str
  deriving DecidableEq, Repr

/-- Element visibility result (`checkElementVisibility`). -/
structure VisibilityR where
  elemExists : Bool
  visible : Bool
  deriving DecidableEq, Repr

/-- A blocking element found in the DOM (`findBlockingElements`); the
fallback reads only `description`. -/
structure BlockingElementR where
  kind : Str
  selector : Str
  description : Str
  confidence : ℚ
  deriving DecidableEq, Repr

/-- Screenshot analysis result (`analyzeScreenshot`); the fallback reads only
`blockingElements`. -/
structure ScreenshotR where
  blockingElements : List Str
  deriving DecidableEq, Repr

/-- The deterministic inputs of `synthesizeSignals` that its fallback branch
reads (`navigationEvents`, `redirects` and the DOM snapshot feed only the
prompt). -/
structure SignalSynthesisInput where
  failureFacts : TestFailureFacts
  pageLoadState : PageLoadStateR
  elementVisibility : Option VisibilityR
  blockingElements : List BlockingElementR
  screenshotAnalysis : Option ScreenshotR
  deriving Repr

/-- `synthesizeSignals`, with the reasoning call's outcome injected: on
failure, assemble the deterministic fallback signals. -/
def synthesizeSignals (llm : Except Str ArtifactSignals)
    (input : SignalSynthesisInput) : ArtifactSignals :=
  match llm with
  | .ok v => v
  | .error _ =>
      let blockingFactors :=
        input.pageLoadState.networkErrors ++
        input.blockingElements.map (fun e => e.description) ++
        (match input.screenshotAnalysis with
         | some s => s.blockingElements
         | none => [])
      let uiState :=
        match input.elementVisibility with
        | none => strOf "unknown"
        | some v =>
            if !v.elemExists then strOf "element missing"
            else if !v.visible then strOf "element hidden"
            else strOf "element visible"
      ⟨uiState, input.pageLoadState.state,
        if blockingFactors.length > 0 then blockingFactors
        else [strOf "No blocking factors detected"]⟩

/-- `correlateArtifacts`: `null` if no trace was supplied; otherwise the
try-block outcome `run` (steps 1–7, injected), degraded to a non-null
`unknown` signal on a hard failure. -/
def correlateArtifacts (hasTrace : Bool) (run : Except Str ArtifactSignals) :
    Option ArtifactSignals :=
  if !hasTrace then none
  else
    match run with
    | .ok s => some s
    | .error e =>
        some ⟨strOf "unknown", strOf "unknown",
          [strOf "Error analyzing artifacts: " ++ e]⟩

/-! ## Trace data and DOM snapshots (`src/tools/readTrace.ts`,
`src/tools/extractDOM.ts`) -/

/-- A viewport. -/
structure Viewport where
  width : Nat
  height : Nat
  deriving DecidableEq, Repr

/-- `SnapshotEntry` from a decoded trace. -/
structure SnapshotEntry where
  snapshotId : Str
  timestamp : ℚ
  url : Str
  title : Option Str
  html : Option Str
  viewport : Option Viewport
  deriving DecidableEq, Repr

/-- `DOMSnapshot` as produced by `extractDOMSnapshot`. -/
structure DOMSnapshot where
  html : Str
  timestamp : ℚ
  url : Str
  viewport : Viewport
  deriving DecidableEq, Repr

/-- The `action` payload of an `ActionEvent`. -/
structure ActionInfo where
  name : Str
  selector : Option Str
  url : Option Str
  value : Option Str
  deriving DecidableEq, Repr

/-- `ActionEvent` from a decoded trace. -/
structure ActionEvent where
  type : Str
  timestamp : ℚ
  action : Option ActionInfo
  error : Option PError
  deriving DecidableEq, Repr

/-- Trace metadata. -/
structure TraceMetadata where
  startTime : Option ℚ
  endTime : Option ℚ
  browser : Option Str
  viewport : Option Viewport
  deriving DecidableEq, Repr

/-- Decoded trace data; the network, console and resource buckets are not
consumed by any embedded claim and are omitted. -/
structure TraceData where
  actions : List ActionEvent
  snapshots : List SnapshotEntry
  metadata : Option TraceMetadata
  deriving Repr

/-- JavaScript truthiness of `s.html`: present and non-empty. -/
def htmlBearing (s : SnapshotEntry) : Bool :=
  match s.html with
  | some h => h ≠ []
  | none => false

/-- Head of the stable descending sort by timestamp used in
`extractDOMSnapshot`: the earliest entry of maximal timestamp. -/
def pickLatest : List SnapshotEntry → Option SnapshotEntry
  | [] => none
  | s :: rest =>
      match pickLatest rest with
      | none => some s
      | some b => if s.timestamp ≥ b.timestamp then some s else some b

/-- Convert a raw snapshot entry to a `DOMSnapshot` with defaults. -/
def toDOMSnapshot (s : SnapshotEntry) : DOMSnapshot :=
  { html := jsStrOr s.html []
    timestamp := s.timestamp
    url := s.url
    viewport := s.viewport.getD ⟨1280, 720⟩ }

/-- `extractDOMSnapshot`: the HTML-bearing snapshot closest to (but not
after) `failureTime`, else the most recent HTML-bearing snapshot, else
`null`. -/
def extractDOMSnapshot (traceData : TraceData) (failureTime : ℚ) :
    Option DOMSnapshot :=
  let qualifying := traceData.snapshots.filter
    (fun s => decide (s.timestamp ≤ failureTime) && htmlBearing s)
  match pickLatest qualifying with
  | some s => some (toDOMSnapshot s)
  | none =>
      match pickLatest (traceData.snapshots.filter htmlBearing) with
      | some s => some (toDOMSnapshot s)
      | none => none

/-! ## Selector quality analysis (`src/tools/analyzeSelectorQuality.ts`) -/

/-- Selector kinds of `ExtractedSelector` (`src/tools/extractSelector.ts`). -/
inductive SelType where
  | css
  | playwright_locator
  | text
  | unknown
  deriving DecidableEq, Repr

/-- `ExtractedSelector`. -/
structure ExtractedSelector where
  selector : Str
  type : SelType
  originalFormat : Str
  isPlaywrightAPI : Bool
  deriving DecidableEq, Repr

/-- `SelectorQualityAnalysis`. -/
structure SelectorQualityAnalysis where
  qualityScore : ℚ
  qualityRating : Quality
  issues : List Str
  strengths : List Str
  deriving DecidableEq, Repr

/-- JavaScript `s.startsWith(pat)`. -/
def startsWithStr (s pat : Str) : Bool := hasPrefixChars s pat

/-- Four consecutive digits somewhere in the string (`/\d{4}/`). -/
def digitRun4 : Str → Bool
  | a :: b :: c :: d :: rest =>
      (a.isDigit && b.isDigit && c.isDigit && d.isDigit) ||
        digitRun4 (b :: c :: d :: rest)
  | _ => false

/-- Two digits, a slash, two digits somewhere in the string
(`/\d{2}\/\d{2}/`). -/
def ddSlashDD : Str → Bool
  | a :: b :: s :: c :: d :: rest =>
      (a.isDigit && b.isDigit && s == '/' && c.isDigit && d.isDigit) ||
        ddSlashDD (b :: s :: c :: d :: rest)
  | _ => false

/-- Does the string end in a digit (`/\d+$/`)? -/
def endsWithDigit (s : Str) : Bool :=
  match s.getLast? with
  | some c => c.isDigit
  | none => false

/-- An ASCII lowercase letter. -/
def isLowerAlpha (c : Char) : Bool := 'a' ≤ c && c ≤ 'z'

/-- An ASCII letter. -/
def isAsciiAlpha (c : Char) : Bool :=
  ('a' ≤ c && c ≤ 'z') || ('A' ≤ c && c ≤ 'Z')

/-- Test of `/^[a-z]+$/`: non-empty and all lowercase letters. -/
def allLowerAlpha (s : Str) : Bool :=
  s ≠ [] && s.all isLowerAlpha

/-- Occurrence of `:nth-child(` followed by at least one digit and a closing
parenthesis (`/:nth-child\(\d+\)/i`, applied to the lower-cased selector). -/
def hasNthChild : Str → Bool
  | [] => false
  | c :: t =>
      (hasPrefixChars (c :: t) (strOf ":nth-child(") &&
        (let rest := (c :: t).drop (strOf ":nth-child(").length
         match rest with
         | d :: _ =>
             d.isDigit &&
               (match rest.dropWhile Char.isDigit with
                | ')' :: _ => true
                | _ => false)
         | [] => false)) ||
      hasNthChild t

/-- Fuel-bounded scanner counting non-overlapping matches of
`<tag[^>]*>`: an occurrence of `tagPat` (here always `<` + tag, so
non-empty) followed by a later `>`, consuming through that `>`.  The string
shrinks by at least one character per step, so `fuel = s.length` is exact. -/
def countTagMatchesAux (tagPat : Str) : Nat → Str → Nat
  | 0, _ => 0
  | _, [] => 0
  | fuel + 1, c :: t =>
      if hasPrefixChars (c :: t) tagPat ∧ tagPat ≠ [] then
        match afterFirst (strOf ">") ((c :: t).drop tagPat.length) with
        | some rest => 1 + countTagMatchesAux tagPat fuel rest
        | none => countTagMatchesAux tagPat fuel t
      else
        countTagMatchesAux tagPat fuel t

/-- JavaScript `(domHtml.match(new RegExp("<tag[^>]*>", "gi")) || []).length`. -/
def countTagMatches (tagPat s : Str) : Nat :=
  countTagMatchesAux tagPat s.length s

/-- `analyzeSelectorQuality`: rule-based quality heuristics, starting from a
perfect score of `1.0` and accumulating issue/strength deductions and
bonuses in source order. -/
def analyzeSelectorQuality (es : ExtractedSelector) (domHtml : Option Str) :
    SelectorQualityAnalysis :=
  let s := es.selector
  -- Heuristic 1: semantic vs CSS
  let h1 : List Str × List Str × ℚ :=
    if es.type = SelType.playwright_locator ∧ es.isPlaywrightAPI then
      let st0 := [strOf "Uses Playwright semantic locator API"]
      if hasSub s (strOf "getByRole") then
        ([], st0 ++ [strOf "Uses role-based locator (most stable)"], 0)
      else if hasSub s (strOf "getByTestId") then
        ([], st0 ++ [strOf "Uses test ID locator (stable for testing)"], 0)
      else if hasSub s (strOf "getByLabel") then
        ([], st0 ++ [strOf "Uses label-based locator (accessible)"], 0)
      else if hasSub s (strOf "getByText") then
        ([strOf "Text-based selector may break if content changes"], st0, -0.2)
      else ([], st0, 0)
    else if es.type = SelType.css then
      let i0 := [strOf "Uses CSS selector instead of semantic Playwright locator"]
      let d0 : ℚ := -0.3
      let nest : List Str × ℚ :=
        if hasSub s (strOf " > ") then
          let depth := countSub (strOf " > ") s
          if depth ≥ 3 then
            ([strOf "Deep nesting detected (" ++ natStr depth ++
              strOf " levels) - fragile to DOM structure changes"], -0.2)
          else if depth ≥ 2 then
            ([strOf "Moderate nesting (" ++ natStr depth ++
              strOf " levels) - may break with layout changes"], -0.1)
          else ([], 0)
        else ([], 0)
      let cls : List Str × ℚ :=
        if startsWithStr s (strOf ".") || hasSub s (strOf ".") then
          ([strOf "Class-based selector may change with styling updates"], -0.15)
        else ([], 0)
      let idb : List Str × ℚ :=
        if startsWithStr s (strOf "#") then
          ([strOf "Uses ID selector (relatively stable)"], 0.1)
        else ([], 0)
      let dat : List Str × ℚ :=
        if hasSub s (strOf "[data-testid") || hasSub s (strOf "[data-test-id") then
          ([strOf "Uses data-testid attribute (stable for testing)"], 0.2)
        else if hasSub s (strOf "[data-") then
          ([strOf "Uses data attribute (more stable than class)"], 0.1)
        else ([], 0)
      (i0 ++ nest.1 ++ cls.1, idb.1 ++ dat.1, d0 + nest.2 + cls.2 + idb.2 + dat.2)
    else if es.type = SelType.text then
      let i0 := [strOf "Text-based selector is fragile to content changes"]
      if digitRun4 s || ddSlashDD s then
        (i0 ++ [strOf "Text contains dates/numbers - likely dynamic content"],
          [], -0.4 + -0.2)
      else (i0, [], -0.4)
    else if es.type = SelType.unknown then
      ([strOf "Selector type could not be determined"], [], -0.1)
    else ([], [], 0)
  -- Heuristic 2: dynamic content indicators
  let h2 : List Str × ℚ :=
    let e1 : List Str × ℚ :=
      if endsWithDigit s then
        ([strOf "Selector ends with numbers - may be dynamically generated"],
          -0.15)
      else ([], 0)
    let e2 : List Str × ℚ :=
      if hasSub s (strOf "random") || hasSub s (strOf "uuid") ||
          hasSub s (strOf "id-") then
        ([strOf "Selector contains dynamic identifier patterns"], -0.25)
      else ([], 0)
    (e1.1 ++ e2.1, e1.2 + e2.2)
  -- Heuristic 3: specificity balance (CSS only)
  let h3 : List Str × ℚ :=
    if es.type = SelType.css then
      let g1 : List Str × ℚ :=
        if allLowerAlpha (trimStr s) then
          ([strOf "Selector is too generic (single tag name) - may match multiple elements"],
            -0.3)
        else ([], 0)
      let g2 : List Str × ℚ :=
        if s.length > 100 then
          ([strOf "Selector is very long - may be overly specific and fragile"],
            -0.15)
        else ([], 0)
      (g1.1 ++ g2.1, g1.2 + g2.2)
    else ([], 0)
  -- Heuristic 4: uniqueness in the DOM (CSS only, DOM available)
  let h4 : List Str × ℚ :=
    match domHtml with
    | some dom =>
        if es.type = SelType.css then
          let leading := s.takeWhile isAsciiAlpha
          if leading ≠ [] then
            let tagCount :=
              countTagMatches (strOf "<" ++ lowerStr leading) (lowerStr dom)
            if tagCount > 10 then
              ([strOf "Many " ++ leading ++
                strOf " elements found in DOM - selector may not be unique"],
                -0.1)
            else ([], 0)
          else ([], 0)
        else ([], 0)
    | none => ([], 0)
  -- Heuristic 5: accessibility attributes (CSS only)
  let h5 : List Str × ℚ :=
    if es.type = SelType.css then
      if hasSub s (strOf "[aria-label") || hasSub s (strOf "[role=") then
        ([strOf "Uses accessibility attributes (good practice)"], 0.15)
      else ([], 0)
    else ([], 0)
  -- Heuristic 6: anti-patterns, each deducting 0.2
  let a1 : List Str × ℚ :=
    if hasSub (lowerStr s) (strOf "body > ") then
      ([strOf "Selector starts from body - overly specific"], -0.2)
    else ([], 0)
  let a2 : List Str × ℚ :=
    if hasSub (lowerStr s) (strOf "html > ") then
      ([strOf "Selector starts from html - overly specific"], -0.2)
    else ([], 0)
  let a3 : List Str × ℚ :=
    if hasNthChild (lowerStr s) then
      ([strOf "Uses nth-child - fragile to DOM order changes"], -0.2)
    else ([], 0)
  let a4 : List Str × ℚ :=
    if anySub (lowerStr s) [strOf ":first-child", strOf ":last-child"] then
      ([strOf "Uses positional pseudo-selectors - fragile"], -0.2)
    else ([], 0)
  let score0 : ℚ :=
    1 + h1.2.2 + h2.2 + h3.2 + h4.2 + h5.2 + a1.2 + a2.2 + a3.2 + a4.2
  let score := max 0 (min 1 score0)
  let issues :=
    h1.1 ++ h2.1 ++ h3.1 ++ h4.1 ++ a1.1 ++ a2.1 ++ a3.1 ++ a4.1
  let strengths := h1.2.1 ++ h5.1
  { qualityScore := score
    qualityRating :=
      if score ≥ 0.8 then Quality.excellent
      else if score ≥ 0.6 then Quality.good
      else if score ≥ 0.4 then Quality.fragile
      else Quality.poor
    issues := if issues.length > 0 then issues else [strOf "No major issues detected"]
    strengths := if strengths.length > 0 then strengths else [] }

/-! ## Selector heuristics agent (`src/agents/selectorHeuristics.ts`) -/

/-- JavaScript `a || d` on an optional rational, `0` and `undefined` falsy. -/
def jsQOr (a : Option ℚ) (d : ℚ) : ℚ :=
  match a with
  | some x => if x = 0 then d else x
  | none => d

/-- `SelectorHeuristicsInput`. -/
structure SelectorHeuristicsInput where
  failureFacts : TestFailureFacts
  failureCategory : FailureCategory
  domSnapshot : Option DOMSnapshot
  failedAction : Option ActionEvent
  deriving Repr

/-- Shape of a suggestion returned by `suggestSelector`
(`src/tools/suggestSelector.ts`, kept abstract). -/
structure SelectorSuggestionR where
  suggestedSelector : Str
  reason : Str
  confidence : ℚ
  deriving DecidableEq, Repr

/-- `SynthesisInput` for the selector-analysis LLM synthesis. -/
structure SynthesisInput where
  extractedSelector : ExtractedSelector
  qualityAnalysis : SelectorQualityAnalysis
  selectorSuggestion : Option SelectorSuggestionR
  failureFacts : TestFailureFacts
  failureCategory : FailureCategory
  deriving Repr

/-- `synthesizeSelectorAnalysis`, with the reasoning capability injected: on
failure, fall back to the heuristic quality values. -/
def synthesizeSelectorAnalysis
    (llm : SynthesisInput → Except Str SelectorAnalysis)
    (input : SynthesisInput) : SelectorAnalysis :=
  match llm input with
  | .ok v => v
  | .error _ =>
      { selectorQuality := input.qualityAnalysis.qualityRating
        qualityScore := input.qualityAnalysis.qualityScore
        issues := input.qualityAnalysis.issues
        suggestedSelector :=
          jsOrStr (input.selectorSuggestion.map
            (fun s => s.suggestedSelector)) none
        suggestionReason :=
          jsOrStr (input.selectorSuggestion.map (fun s => s.reason)) none
        confidence :=
          jsQOr (input.selectorSuggestion.map (fun s => s.confidence)) 0.7 }

/-- The relevance gate at the top of `analyzeSelectorHeuristics` (step 1). -/
def selectorAgentGate (facts : TestFailureFacts) (cat : FailureCategory) :
    Bool :=
  cat.category == Category.selector_not_found ||
  hasSub (lowerStr facts.failedStep) (strOf "selector") ||
  hasSub (lowerStr facts.failedStep) (strOf "locator") ||
  hasSub (lowerStr facts.error) (strOf "element") ||
  hasSub (lowerStr facts.error) (strOf "selector")

/-- Quick prefix heuristic classifying a selector recorded on a trace
action. -/
def traceSelectorType (ts : Str) : SelType :=
  if startsWithStr ts (strOf "#") || startsWithStr ts (strOf ".") ||
      hasSub ts (strOf "[") then
    SelType.css
  else if hasSub ts (strOf "getBy") || hasSub ts (strOf "locator") then
    SelType.playwright_locator
  else
    SelType.unknown

/-- `analyzeSelectorHeuristics`: gate on relevance, extract a selector from
the failed step, the error text, or the trace action, analyse its quality,
optionally compute a DOM-based suggestion, then synthesize.  `extractSel`
(`src/tools/extractSelector.ts`) and `suggestSel`
(`src/tools/suggestSelector.ts`) are injected; no claim depends on their
internals. -/
def analyzeSelectorHeuristics
    (extractSel : Str → Option ExtractedSelector)
    (suggestSel : ExtractedSelector → DOMSnapshot → Option SelectorSuggestionR)
    (llm : SynthesisInput → Except Str SelectorAnalysis)
    (input : SelectorHeuristicsInput) : Option SelectorAnalysis :=
  if !selectorAgentGate input.failureFacts input.failureCategory then none
  else
    let es0 :=
      (extractSel input.failureFacts.failedStep).orElse
        (fun _ => extractSel input.failureFacts.error)
    let es1 : Option ExtractedSelector :=
      match es0 with
      | some e => some e
      | none =>
          match input.failedAction with
          | some fa =>
              match fa.action with
              | some a =>
                  match a.selector with
                  | some ts =>
                      if ts ≠ [] then
                        some ⟨ts, traceSelectorType ts, ts,
                          hasSub ts (strOf "getBy") || hasSub ts (strOf "locator")⟩
                      else none
                  | none => none
              | none => none
          | none => none
    match es1 with
    | none => none
    | some sel =>
        let qualityAnalysis :=
          analyzeSelectorQuality sel (input.domSnapshot.map (fun d => d.html))
        let selectorSuggestion :=
          match input.domSnapshot with
          | some d => suggestSel sel d
          | none => none
        some (synthesizeSelectorAnalysis llm
          ⟨sel, qualityAnalysis, selectorSuggestion, input.failureFacts,
            input.failureCategory⟩)

/-! ## Page text extraction (`src/tools/extractPageText.ts`) -/

/-- A `\w` character: ASCII letter, digit or underscore. -/
def isWordChar (c : Char) : Bool := c.isAlphanum || c == '_'

/-- JavaScript `s.toLowerCase().replace(/[^\w\s]/g, "").trim()` as used by
`calculateSimilarity`. -/
def normalizeText (s : Str) : Str :=
  trimStr ((lowerStr s).filter (fun c => isWordChar c || wsChar c))

/-- JavaScript `s.split(/\s+/).filter(w => w.length > 0)`. -/
def splitWS (s : Str) : List Str :=
  (s.foldr (fun c acc =>
    match acc with
    | [] => if wsChar c then [[], []] else [[c]]
    | l :: ls => if wsChar c then [] :: l :: ls else (c :: l) :: ls)
    [[]]).filter (fun w => w ≠ [])

/-- A fuzzy-match result of `findSimilarText`. -/
structure SimilarText where
  text : Str
  similarity : ℚ
  deriving DecidableEq, Repr

/-- `calculateSimilarity`: blended word-overlap / positional character-overlap
similarity. -/
def calculateSimilarity (str1 str2 : Str) : ℚ :=
  let longer := if str1.length > str2.length then str1 else str2
  if longer.length = 0 then 1
  else
    let norm1 := normalizeText str1
    let norm2 := normalizeText str2
    if norm1 == norm2 then 1
    else
      let words1 := splitWS norm1
      let words2 := splitWS norm2
      if words1.length = 0 ∨ words2.length = 0 then 0
      else
        let shorterWords :=
          if words1.length < words2.length then words1 else words2
        let longerWords :=
          if words1.length ≥ words2.length then words1 else words2
        let matchingWords :=
          (shorterWords.filter (fun w => longerWords.contains w)).length
        let wordSimilarity :=
          (matchingWords : ℚ) / (max words1.length words2.length : ℚ)
        let charMatches :=
          ((norm1.zip norm2).filter (fun p => p.1 == p.2)).length
        let charSimilarity :=
          (charMatches : ℚ) / (max norm1.length norm2.length : ℚ)
        wordSimilarity * 0.7 + charSimilarity * 0.3

/-- `findSimilarText`: exact match (1.0) first, then containment (0.8), then
the best fuzzy similarity strictly above the 0.3 floor. -/
def findSimilarText (expectedText : Str) (actualTexts : List Str) :
    Option SimilarText :=
  if expectedText = [] ∨ actualTexts.length = 0 then none
  else
    let normalizedExpected := trimStr (lowerStr expectedText)
    match actualTexts.find? (fun a =>
      trimStr (lowerStr a) == normalizedExpected) with
    | some a => some ⟨a, 1⟩
    | none =>
        match actualTexts.find? (fun a =>
          let na := trimStr (lowerStr a)
          hasSub na normalizedExpected || hasSub normalizedExpected na) with
        | some a => some ⟨a, 0.8⟩
        | none =>
            (actualTexts.foldl (fun (best : Option SimilarText × ℚ) a =>
              let similarity := calculateSimilarity normalizedExpected a
              if similarity > best.2 then (some ⟨a, similarity⟩, similarity)
              else best) (none, 0.3)).1

/-! ## Solution suggestion agent (`src/agents/solutionSuggester.ts`) -/

/-- `SolutionSuggesterInput`. -/
structure SolutionSuggesterInput where
  failureFacts : TestFailureFacts
  failureCategory : FailureCategory
  artifactSignals : Option ArtifactSignals
  selectorAnalysis : Option SelectorAnalysis
  finalDiagnosis : FinalDiagnosis
  domSnapshot : Option DOMSnapshot
  deriving Repr

/-- Rendering of `failureFacts.lineNumber || "N/A"`. -/
def lineOrNA (n : Option Nat) : Str :=
  match n with
  | some v => if v = 0 then strOf "N/A" else natStr v
  | none => strOf "N/A"

/-- `applySolutionTemplates`: the five rule templates, keyed on the
diagnosis's recommended action (`extractFullLoc` models
`extractFullLocatorFromError`, kept abstract). -/
def applySolutionTemplates
    (extractSel : Str → Option ExtractedSelector)
    (extractFullLoc : Str → Option Str)
    (input : SolutionSuggesterInput) : Option SolutionSuggestion :=
  let facts := input.failureFacts
  let action := input.finalDiagnosis.recommendedAction
  -- Template 1: selector fixes
  let template1 : Option SolutionSuggestion :=
    if action = strOf "fix selector" ∨ action = strOf "review selector strategy" then
      match input.selectorAnalysis with
      | some sa =>
          match sa.suggestedSelector with
          | some suggested =>
              if suggested ≠ [] then
                let fullLocatorFromError := extractFullLoc facts.error
                let extractedSelector :=
                  (extractSel facts.failedStep).orElse
                    (fun _ => extractSel facts.error)
                let originalCode :=
                  jsStrOr (jsOrStr fullLocatorFromError
                    (extractedSelector.map (fun e => e.originalFormat)))
                    facts.failedStep
                some
                  { suggestedCode := some suggested
                    originalCode := some originalCode
                    explanation :=
                      jsStrOr sa.suggestionReason
                        (strOf "Replace the fragile selector with a more stable Playwright locator. " ++
                          (if sa.issues.length > 0 then
                            strOf "Issues found: " ++
                              joinSep (strOf ", ") sa.issues ++ strOf "."
                          else []))
                    steps := [
                      strOf "Locate the failing test in " ++ facts.file,
                      strOf "Find the line where the selector is used (around line " ++
                        lineOrNA facts.lineNumber ++ strOf ")",
                      strOf "Replace the current selector with: " ++ suggested,
                      strOf "Run the test again to verify the fix"]
                    alternativeApproaches := some [
                      strOf "If the suggested selector doesn't work, try using getByRole with the element's accessible role",
                      strOf "Consider adding a data-testid attribute to the element for more stable testing",
                      strOf "Use getByText if the element has unique visible text"]
                    confidence := sa.confidence * 0.9 }
              else none
          | none => none
      | none => none
    else none
  match template1 with
  | some t => some t
  | none =>
  -- Template 2: timeout fixes
  if action = strOf "increase timeout" then
    let currentTimeout := jsNatOr facts.timeout 30000
    let suggestedTimeout := max (currentTimeout * 2) 60000
    some
      { suggestedCode := some
          (strOf "// Option 1: Set timeout for specific action\nawait page.locator('selector').click(\x7b timeout: " ++
            natStr suggestedTimeout ++
            strOf " \x7d);\n\n// Option 2: Set timeout globally in test\nawait page.setDefaultTimeout(" ++
            natStr suggestedTimeout ++
            strOf ");\n\n// Option 3: Set timeout in playwright.config.ts\ntest.setTimeout(" ++
            natStr suggestedTimeout ++ strOf ");")
        originalCode := some
          (match facts.timeout with
           | some t =>
               if t ≠ 0 then strOf "timeout: " ++ natStr t ++ strOf "ms"
               else strOf "default timeout (30s)"
           | none => strOf "default timeout (30s)")
        explanation :=
          strOf "The test timed out after " ++ natStr currentTimeout ++
            strOf "ms. Increase the timeout to " ++ natStr suggestedTimeout ++
            strOf "ms to allow more time for the page or element to load. This is especially important for slow networks or heavy pages."
        steps := [
          strOf "Identify the action that timed out: " ++ facts.failedStep,
          strOf "Add a timeout parameter to the specific action, or set a global timeout for the test",
          strOf "Consider investigating why the page is slow (network issues, heavy resources, etc.)",
          strOf "Run the test again with the increased timeout"]
        alternativeApproaches := some [
          strOf "Instead of increasing timeout, wait for specific conditions: await page.waitForLoadState('networkidle')",
          strOf "Use waitForSelector with a longer timeout: await page.waitForSelector('selector', \x7b timeout: " ++
            natStr suggestedTimeout ++ strOf " \x7d)",
          strOf "Check if the page has blocking elements (modals, banners) that need to be dismissed first"]
        confidence := 0.75 }
  -- Template 3: test logic fixes (assertion failures)
  else if action = strOf "review test logic" ∧
      input.failureCategory.category = Category.assertion_failed then
    some
      { suggestedCode := some
          (strOf "// Review your assertion logic\n// Original assertion likely failed because:\n// 1. Expected value doesn't match actual value\n// 2. Element state changed before assertion\n// 3. Async operation not awaited\n\n// Example fix:\nawait expect(page.locator('selector')).toHaveText('expected text');\n// Or:\nawait expect(page.locator('selector')).toBeVisible();")
        originalCode := some facts.failedStep
        explanation :=
          strOf "The assertion failed, but the page loaded correctly. This suggests the test expectations may be incorrect or the assertion logic needs review. Check if you're asserting the right values or if async operations are properly awaited."
        steps := [
          strOf "Review the assertion that failed: " ++ facts.failedStep,
          strOf "Check what the actual value was (see error message or screenshots)",
          strOf "Verify the expected value matches what the application actually renders",
          strOf "Ensure all async operations are properly awaited before assertions",
          strOf "Update the assertion to match the actual behavior"]
        alternativeApproaches := some [
          strOf "Use Playwright's auto-waiting assertions: expect(locator).toHaveText() instead of manual checks",
          strOf "Add explicit waits before assertions: await page.waitForSelector('selector')",
          strOf "Check if the element state changed between action and assertion"]
        confidence := 0.7 }
  -- Template 4: environment/config fixes (auth errors)
  else if action = strOf "check environment" ∧
      input.failureCategory.category = Category.auth_error then
    some
      { suggestedCode := some
          (strOf "// Option 1: Set up authentication in test\nawait page.goto('/login');\nawait page.fill('input[name=\"email\"]', process.env.TEST_EMAIL);\nawait page.fill('input[name=\"password\"]', process.env.TEST_PASSWORD);\nawait page.click('button[type=\"submit\"]');\nawait page.waitForURL('/dashboard');\n\n// Option 2: Use Playwright's authentication storage\n// Save auth state: await page.context().storageState(\x7b path: 'auth.json' \x7d);\n// Reuse in tests: use: \x7b storageState: 'auth.json' \x7d")
        originalCode := none
        explanation :=
          strOf "Authentication error detected. This suggests the test environment may not be properly configured with credentials, or the authentication flow has changed. Set up proper authentication in your test setup."
        steps := [
          strOf "Verify test credentials are available (check environment variables)",
          strOf "Set up authentication before running the test (in beforeEach or test setup)",
          strOf "Consider using Playwright's storageState to persist authentication across tests",
          strOf "Check if the authentication endpoint or flow has changed",
          strOf "Verify the test environment matches the expected authentication configuration"]
        alternativeApproaches := some [
          strOf "Use Playwright's request context for API-based authentication",
          strOf "Mock authentication in tests if appropriate for your use case",
          strOf "Check if authentication cookies or tokens are being properly set"]
        confidence := 0.7 }
  -- Template 5: navigation errors
  else if action = strOf "investigate app" ∧
      input.failureCategory.category = Category.navigation_error then
    some
      { suggestedCode := some
          (strOf "// Add error handling and debugging\nawait page.goto('/path', \x7b waitUntil: 'networkidle', timeout: 60000 \x7d);\n\n// Or check for navigation errors:\ntry \x7b\n  await page.goto('/path');\n\x7d catch (error) \x7b\n  console.error('Navigation failed:', error);\n  // Check network tab, server logs, etc.\n\x7d")
        originalCode := some facts.failedStep
        explanation :=
          strOf "Navigation error indicates the application may be down, the URL is incorrect, or there's a network/server issue. This is typically an application problem, not a test issue."
        steps := [
          strOf "Verify the application is running and accessible",
          strOf "Check if the URL is correct and the route exists",
          strOf "Review server logs for errors",
          strOf "Check network connectivity and firewall settings",
          strOf "Verify the test environment configuration matches the application environment"]
        alternativeApproaches := some [
          strOf "Add retry logic for transient network issues",
          strOf "Use a different waitUntil strategy: 'domcontentloaded' or 'load'",
          strOf "Check if the application requires specific headers or authentication"]
        confidence := 0.8 }
  else none

/-- `suggestSolution`: a template result with confidence at least `0.8` is
returned immediately; otherwise the reasoning capability runs with the
template as a hint, degrading to the template result (or `null`) on
failure. -/
def suggestSolution
    (llm : SolutionSuggesterInput → Option SolutionSuggestion →
      Except Str SolutionSuggestion)
    (extractSel : Str → Option ExtractedSelector)
    (extractFullLoc : Str → Option Str)
    (input : SolutionSuggesterInput) : Option SolutionSuggestion :=
  let templateResult := applySolutionTemplates extractSel extractFullLoc input
  match templateResult with
  | some t =>
      if t.confidence ≥ 0.8 then some t
      else
        match llm input templateResult with
        | .ok v => some v
        | .error _ => some t
  | none =>
      match llm input none with
      | .ok v => some v
      | .error _ => none

/-! ## Pipeline orchestration (`src/pipeline/runAnalysis.ts`) -/

/-- The six index-aligned result arrays returned by `runAnalysis`. -/
structure AnalysisResults where
  failureFacts : List TestFailureFacts
  failureCategories : List FailureCategory
  artifactSignals : List (Option ArtifactSignals)
  selectorAnalyses : List (Option SelectorAnalysis)
  diagnoses : List (Option FinalDiagnosis)
  solutionSuggestions : List (Option SolutionSuggestion)
  deriving Repr

/-- The external capabilities and abstracted repository helpers consumed by
one pipeline run. -/
structure PipelineOracles where
  classifyLLM : TestFailureFacts → Option Category → Except Str FailureCategory
  correlateRun : TestFailureFacts → Except Str ArtifactSignals
  selectorLLM : SynthesisInput → Except Str SelectorAnalysis
  actionLLM : ActionSynthesizerInput → Option FinalDiagnosis →
    Except Str FinalDiagnosis
  solutionLLM : SolutionSuggesterInput → Option SolutionSuggestion →
    Except Str SolutionSuggestion
  extractSel : Str → Option ExtractedSelector
  suggestSel : ExtractedSelector → DOMSnapshot → Option SelectorSuggestionR
  extractFullLoc : Str → Option Str
  now : ℚ

/-- `Math.max(...actions.map(a => a.timestamp))` (callers guard against an
empty list). -/
def maxActionTimestamp : List ActionEvent → ℚ
  | [] => 0
  | a :: rest => rest.foldl (fun m x => max m x.timestamp) a.timestamp

/-- The failure time used by the pipeline: metadata end time, else the
latest action timestamp, else the current wall-clock time. -/
def failureTimeOf (td : TraceData) (now : ℚ) : ℚ :=
  jsQOr (td.metadata.bind (fun m => m.endTime))
    (if td.actions.length > 0 then maxActionTimestamp td.actions else now)

/-- Head of the stable ascending sort by distance to `ft`: the earliest
action of minimal distance. -/
def pickClosest (ft : ℚ) : List ActionEvent → Option ActionEvent
  | [] => none
  | a :: rest =>
      match pickClosest ft rest with
      | none => some a
      | some b =>
          if |a.timestamp - ft| ≤ |b.timestamp - ft| then some a else some b

/-- The failed action the pipeline hands to the selector stage: the action
with an error closest to the failure time, else the last action. -/
def failedActionOf (td : TraceData) (now : ℚ) : Option ActionEvent :=
  let ft := failureTimeOf td now
  match pickClosest ft (td.actions.filter (fun a => a.error.isSome)) with
  | some a => some a
  | none => td.actions.getLast?

/-- The pipeline-side relevance gate for the selector stage (phase 4). -/
def pipelineSelectorGate (f : TestFailureFacts) (cat : FailureCategory)
    (sig : Option ArtifactSignals) : Bool :=
  cat.category == Category.selector_not_found ||
  (match sig with
   | some s => s.uiState == strOf "element missing"
   | none => false) ||
  hasSub (lowerStr f.failedStep) (strOf "selector") ||
  hasSub (lowerStr f.failedStep) (strOf "locator")

/-- Modelled from the spec (claim C6): the stage runs iff the category is
`selector_not_found` or the failed-step or error text mentions
`selector`, `locator`, or `element`. -/
def claimedSelectorGate (f : TestFailureFacts) (cat : FailureCategory) : Bool :=
  cat.category == Category.selector_not_found ||
  anySub (lowerStr f.failedStep)
    [strOf "selector", strOf "locator", strOf "element"] ||
  anySub (lowerStr f.error)
    [strOf "selector", strOf "locator", strOf "element"]

/-- `runAnalysis`: the full pipeline for a list of failure facts
(phase 1, `decomposeReport`, feeds this list) and an optionally decoded
trace.  A trace that fails to decode aborts the whole run in the source
(fatal error), so a run is modelled by its decoded trace, if any. -/
def runAnalysis (oracles : PipelineOracles) (facts : List TestFailureFacts)
    (traceData : Option TraceData) : AnalysisResults :=
  let failureCategories :=
    if facts.length > 0 then
      facts.map (fun f => classifyFailure (oracles.classifyLLM f) f)
    else []
  let hasTrace := traceData.isSome
  let artifactSignals :=
    if hasTrace ∧ facts.length > 0 then
      facts.map (fun f => correlateArtifacts true (oracles.correlateRun f))
    else
      facts.map (fun _ => none)
  let selectorAnalyses :=
    if facts.length > 0 ∧ failureCategories.length > 0 then
      let domSnap :=
        match traceData with
        | some td => extractDOMSnapshot td (failureTimeOf td oracles.now)
        | none => none
      let failedAction :=
        match traceData with
        | some td => failedActionOf td oracles.now
        | none => none
      (facts.zip (failureCategories.zip artifactSignals)).map
        (fun ⟨f, cat, sig⟩ =>
          if pipelineSelectorGate f cat sig then
            analyzeSelectorHeuristics oracles.extractSel oracles.suggestSel
              oracles.selectorLLM ⟨f, cat, domSnap, failedAction⟩
          else none)
    else
      facts.map (fun _ => none)
  let diagnoses :=
    if facts.length > 0 then
      (facts.zip (failureCategories.zip (artifactSignals.zip selectorAnalyses))).map
        (fun ⟨f, cat, sig, sa⟩ =>
          some (synthesizeAction (oracles.actionLLM ⟨f, cat, sig, sa⟩)
            ⟨f, cat, sig, sa⟩))
    else []
  let solutionSuggestions :=
    if facts.length > 0 ∧ diagnoses.length > 0 then
      let domSnapForSolutions :=
        match traceData with
        | some td => extractDOMSnapshot td (failureTimeOf td oracles.now)
        | none => none
      (facts.zip (failureCategories.zip
        (artifactSignals.zip (selectorAnalyses.zip diagnoses)))).map
        (fun ⟨f, cat, sig, sa, d⟩ =>
          match d with
          | some diag =>
              suggestSolution oracles.solutionLLM oracles.extractSel
                oracles.extractFullLoc ⟨f, cat, sig, sa, diag, domSnapForSolutions⟩
          | none => none)
    else
      facts.map (fun _ => none)
  ⟨facts, failureCategories, artifactSignals, selectorAnalyses, diagnoses,
    solutionSuggestions⟩

/-! ## Concrete instances used by the claim theorems -/

/-- The selector recorded on an optional trace action
(`input.failedAction?.action?.selector`). -/
def traceActionSelector (oa : Option ActionEvent) : Option Str :=
  (oa.bind (fun a => a.action)).bind (fun a => a.selector)

/-- A location extractor that finds nothing (claim C2 instances). -/
def c2LocOf : Str → FileLocation := fun _ => ⟨none, none, none⟩

/-- A stack extractor that finds nothing (claim C2 instances). -/
def c2StackOf : Str → List Str := fun _ => []

/-- A step carrying an error (claim C2). -/
def c2Step : PStep :=
  PStep.mk (some (strOf "click button")) (some ⟨some (strOf "boom"), none⟩) []

/-- A result whose status is `passed` but whose step carries an error
(claim C2). -/
def c2Result : PResult :=
  ⟨some RStatus.passed, some 100, [c2Step], none⟩

/-- A report containing only `c2Result` (claim C2). -/
def c2Report : PlaywrightReport :=
  ⟨[PSuite.mk (some (strOf "suite"))
    [⟨some (strOf "my test"), some (strOf "a.spec.ts"), some 3, some 1,
      [⟨some (strOf "t"), none, none, [c2Result]⟩]⟩] []]⟩

/-- A failure whose error text is exactly `net::ERR_CONNECTION_REFUSED`
(claim C3). -/
def c3Facts : TestFailureFacts :=
  ⟨strOf "t", strOf "f.ts", strOf "click", strOf "net::ERR_CONNECTION_REFUSED",
    none, none, none, none⟩

/-- A reasoning capability returning a fixed non-navigation category
(claim C3). -/
def c3LLM : Option Category → Except Str FailureCategory :=
  fun _ => Except.ok ⟨Category.unknown, 1, strOf "llm answer"⟩

/-- An action-synthesis input with category `navigation_error` (claim C3). -/
def c3ActionInput : ActionSynthesizerInput :=
  ⟨c3Facts, ⟨Category.navigation_error, 0.4, strOf "r"⟩, none, none⟩

/-- The diagnosis produced by heuristic rule 1 (claims C3). -/
def rule1Diagnosis : FinalDiagnosis :=
  ⟨Verdict.app_issue, strOf "investigate app", Urgency.high,
    strOf "Navigation error indicates an application issue. Check server logs, network connectivity, and application health."⟩

/-- A failure whose patterns score `navigation_error` at `0.6` (claim C4
witness: the medium-confidence band). -/
def c4Facts : TestFailureFacts :=
  ⟨strOf "t", strOf "f.ts", strOf "click",
    strOf "page.goto: net::ERR_CONNECTION_REFUSED", none, none, none, none⟩

/-- A concrete reasoning capability (claim C4 witness). -/
def c4LLM : Option Category → Except Str FailureCategory :=
  fun _ => Except.ok ⟨Category.timeout, 0.5, strOf "llm"⟩

/-- A failure matching no classification pattern (claim C5 witness). -/
def c5Facts : TestFailureFacts :=
  ⟨strOf "my test", strOf "Unknown file", strOf "Unknown step", strOf "boom",
    none, none, none, none⟩

/-- A concrete synthesis input for the correlation fallback (claim C5
witness). -/
def c5SignalInput : SignalSynthesisInput :=
  ⟨c5Facts, ⟨strOf "loaded", []⟩, some ⟨false, false⟩, [], none⟩

/-- A concrete extracted selector (claim C5 witness). -/
def c5Selector : ExtractedSelector :=
  ⟨strOf "#submit", SelType.css, strOf "#submit", false⟩

/-- A concrete selector-synthesis input (claim C5 witness). -/
def c5SynthInput : SynthesisInput :=
  ⟨c5Selector, analyzeSelectorQuality c5Selector none, none, c5Facts,
    ⟨Category.selector_not_found, 0.6, strOf "r"⟩⟩

/-- A concrete action-synthesis input with no firing heuristic (claim C5
witness). -/
def c5ActionInput : ActionSynthesizerInput :=
  ⟨c5Facts, ⟨Category.unknown, 0, strOf "r"⟩, none, none⟩

/-- A concrete solution-suggestion input (claim C5 witness). -/
def c5SolutionInput : SolutionSuggesterInput :=
  ⟨c5Facts, ⟨Category.unknown, 0, strOf "r"⟩, none, none,
    ⟨Verdict.unclear, strOf "review failure details manually", Urgency.low,
      strOf "r"⟩, none⟩

/-- A failure whose error text mentions `locator` but neither gate passes
(claim C6). -/
def c6Facts : TestFailureFacts :=
  ⟨strOf "t", strOf "f.ts", strOf "click", strOf "locator not resolved",
    none, none, none, none⟩

/-- The `unknown` category assigned to `c6Facts` (claim C6). -/
def c6Cat : FailureCategory := ⟨Category.unknown, 0, strOf "r"⟩

/-- Oracles for a full concrete run (claim C6): the reasoning capability is
down, all helpers find nothing. -/
def c6Oracles : PipelineOracles :=
  { classifyLLM := fun _ _ => Except.error (strOf "down")
    correlateRun := fun _ => Except.error (strOf "down")
    selectorLLM := fun _ => Except.error (strOf "down")
    actionLLM := fun _ _ => Except.error (strOf "down")
    solutionLLM := fun _ _ => Except.error (strOf "down")
    extractSel := fun _ => none
    suggestSel := fun _ _ => none
    extractFullLoc := fun _ => none
    now := 0 }

/-- Two snapshots, one HTML-bearing, one not (claim C7 witness). -/
def c7Trace : TraceData :=
  ⟨[], [⟨strOf "s1", 10, strOf "u1", none, some (strOf "<html>1</html>"), none⟩,
     ⟨strOf "s2", 20, strOf "u2", none, some (strOf "<html>2</html>"), none⟩,
     ⟨strOf "s3", 30, strOf "u3", none, some [], none⟩], none⟩

/-- The expected text of the text-mismatch scenario (claim C8). -/
def c8Expected : Str := strOf "Thank you for orderRING!"

/-- The actual page text of the text-mismatch scenario (claim C8). -/
def c8Actual : Str := strOf "Thank you for your order!"

/-- The robust CSS selector of the monotonicity property (claim C9). -/
def c9Button : ExtractedSelector :=
  ⟨strOf "button[type=\"submit\"]", SelType.css,
    strOf "button[type=\"submit\"]", false⟩

/-- The fragile CSS selector of the monotonicity property (claim C9). -/
def c9Nested : ExtractedSelector :=
  ⟨strOf "div > div > div > span:nth-child(3)", SelType.css,
    strOf "div > div > div > span:nth-child(3)", false⟩

/-- A failed result with a recorded duration of `0` (claim C10). -/
def c10Result : PResult :=
  ⟨some RStatus.failed, some 0, [], some ⟨some (strOf "boom"), none⟩⟩

/-- A report containing only `c10Result` (claim C10). -/
def c10Report : PlaywrightReport :=
  ⟨[PSuite.mk (some (strOf "suite"))
    [⟨some (strOf "my test"), none, none, none, [⟨none, none, none, [c10Result]⟩]⟩]
    []]⟩

/-- The failure fact extracted from `c10Result` (claim C10). -/
def c10Fact : TestFailureFacts :=
  ⟨strOf "my test", strOf "Unknown file", strOf "Unknown step", strOf "boom",
    none, none, none, none⟩

/-- A failure with a positive recorded timeout and no matching text pattern
(claim C10 witness). -/
def c10PosFact : TestFailureFacts :=
  ⟨strOf "my test", strOf "Unknown file", strOf "Unknown step", strOf "boom",
    some 5000, none, none, none⟩

/-- A failure whose error mentions `element`, passing the agent-side gate
(claim C6 witness). -/
def c6Facts2 : TestFailureFacts :=
  ⟨strOf "t", strOf "f.ts", strOf "click", strOf "element not visible",
    none, none, none, none⟩

/-- A location extractor that finds nothing (claim C10 instances). -/
def c10LocOf : Str → FileLocation := fun _ => ⟨none, none, none⟩

/-- A stack extractor that finds nothing (claim C10 instances). -/
def c10StackOf : Str → List Str := fun _ => []

/-! ## Supporting lemmas -/

theorem filterMap_guard {α β : Type _} (q : α → Bool) (f : α → β) :
    ∀ l : List α,
      (l.filterMap (fun a => if q a then some (f a) else none)) =
        (l.filter q).map f
  | [] => rfl
  | a :: t => by
      by_cases hq : q a <;>
        simp [List.filterMap_cons, List.filter_cons, hq, filterMap_guard q f t]

theorem filter_map_flatMap {α β γ : Type _} (g : α → List β) (q : β → Bool)
    (f : β → γ) :
    ∀ l : List α,
      ((l.flatMap g).filter q).map f =
        l.flatMap (fun a => ((g a).filter q).map f)
  | [] => rfl
  | a :: t => by
      simp [List.flatMap_cons, List.filter_append, List.map_append,
        filter_map_flatMap g q f t]

theorem extract_eq_qualifies (locOf : Str → FileLocation)
    (stackOf : Str → List Str) (sp : PSpec) (te : PTest) (re : PResult) :
    (if resultIsFailedStatus re then
      extractFailureFacts locOf stackOf sp te re
    else none) =
      if codeQualifies re then some (factOf locOf stackOf sp te re) else none := by
  unfold extractFailureFacts codeQualifies
  by_cases h1 : resultIsFailedStatus re <;>
    by_cases h2 : resultHasDirectError re <;> simp [h1, h2]

theorem testsFailures_eq (locOf : Str → FileLocation)
    (stackOf : Str → List Str) (sp : PSpec) :
    ∀ tests : List PTest,
      tests.flatMap (fun te =>
        te.results.filterMap (fun re =>
          if resultIsFailedStatus re then
            extractFailureFacts locOf stackOf sp te re
          else none)) =
      ((tests.flatMap (fun te =>
          te.results.map (fun re => (sp, te, re)))).filter
        (fun x => codeQualifies x.2.2)).map
        (fun x => factOf locOf stackOf x.1 x.2.1 x.2.2)
  | [] => rfl
  | te :: rest => by
      simp only [List.flatMap_cons, List.filter_append, List.map_append,
        testsFailures_eq locOf stackOf sp rest]
      congr 1
      rw [List.filter_map, List.map_map]
      simp only [Function.comp_def, extract_eq_qualifies]
      exact filterMap_guard _ _ _

theorem specsFailures_eq (locOf : Str → FileLocation)
    (stackOf : Str → List Str) :
    ∀ specs : List PSpec,
      specs.flatMap (specFailures locOf stackOf) =
        ((specs.flatMap (fun sp =>
            sp.tests.flatMap (fun te =>
              te.results.map (fun re => (sp, te, re))))).filter
          (fun x => codeQualifies x.2.2)).map
          (fun x => factOf locOf stackOf x.1 x.2.1 x.2.2)
  | [] => rfl
  | sp :: sps => by
      simp only [List.flatMap_cons, List.filter_append, List.map_append,
        specsFailures_eq locOf stackOf sps]
      congr 1
      unfold specFailures
      exact testsFailures_eq locOf stackOf sp sp.tests

theorem traverse_eq (locOf : Str → FileLocation) (stackOf : Str → List Str)
    (l : List PSuite) :
    traverseSuiteForFailures locOf stackOf l =
      ((collectResults l).filter (fun x => codeQualifies x.2.2)).map
        (fun x => factOf locOf stackOf x.1 x.2.1 x.2.2) := by
  induction l using traverseSuiteForFailures.induct locOf stackOf with
  | case1 => simp [traverseSuiteForFailures, collectResults]
  | case2 t specs subs rest ih1 ih2 =>
      simp only [traverseSuiteForFailures, collectResults, List.filter_append,
        List.map_append, ih1, ih2, specsFailures_eq locOf stackOf specs]

theorem factOf_error (locOf : Str → FileLocation) (stackOf : Str → List Str)
    (sp : PSpec) (te : PTest) (re : PResult) :
    (factOf locOf stackOf sp te re).error = effectiveErrorMsg re := by
  unfold factOf effectiveErrorMsg
  cases h : re.error.orElse (fun _ => (findFailingStep re.steps).bind PStep.error) with
  | none => simp [h, jsStrOr, strOf]
  | some e => simp [h]

/-! ## Claim C2 -/

/-- Claim C2 counterexample: a result whose status is `passed` but whose
(top-level) step carries an error qualifies under the claimed condition, yet
the parser emits no `FailureFact` for it — `traverseSuiteForFailures` only
considers results with status `failed` or `timedOut`. -/
theorem claim_C2_counterexample :
    claimedQualifies c2Result = true ∧
    parsePlaywrightReport c2LocOf c2StackOf c2Report = [] := by
  constructor
  · simp [claimedQualifies, c2Result, c2Step, anyStepErrorDeep,
      resultIsFailedStatus]
  · simp [parsePlaywrightReport, c2Report, traverseSuiteForFailures,
      specFailures, c2Result, resultIsFailedStatus]

/-- Claim C2, amended: the parser emits one `FailureFact` per traversed
result whose status is `failed` or `timedOut` AND which carries a
result-level error or a direct (top-level) step error, in traversal order;
and every emitted fact's effective error is the result-level error if
present, else the first (depth-first, first-match) failing step's error,
else the `Unknown error` sentinel. -/
theorem claim_C2_amended (locOf : Str → FileLocation)
    (stackOf : Str → List Str) (report : PlaywrightReport) :
    parsePlaywrightReport locOf stackOf report =
      ((collectResults report.suites).filter
        (fun x => codeQualifies x.2.2)).map
        (fun x => factOf locOf stackOf x.1 x.2.1 x.2.2) ∧
    ∀ sp te re, (factOf locOf stackOf sp te re).error = effectiveErrorMsg re := by
  exact ⟨traverse_eq locOf stackOf report.suites,
    fun sp te re => factOf_error locOf stackOf sp te re⟩

/-! ## Claim C1 -/

theorem correlateArtifacts_isSome (run : Except Str ArtifactSignals) :
    (correlateArtifacts true run).isSome = true := by
  cases run <;> simp [correlateArtifacts]

/-- Claim C1: every run of `runAnalysis` returns six index-aligned arrays of
equal length, and `artifactSignals[i]` is non-null exactly when a trace was
supplied (correlation always returns a signal — possibly the degraded
`unknown` one — when a trace exists). -/
theorem claim_C1_index_alignment (oracles : PipelineOracles)
    (facts : List TestFailureFacts) (traceData : Option TraceData) :
    (runAnalysis oracles facts traceData).failureFacts = facts ∧
    (runAnalysis oracles facts traceData).failureCategories.length =
      facts.length ∧
    (runAnalysis oracles facts traceData).artifactSignals.length =
      facts.length ∧
    (runAnalysis oracles facts traceData).selectorAnalyses.length =
      facts.length ∧
    (runAnalysis oracles facts traceData).diagnoses.length = facts.length ∧
    (runAnalysis oracles facts traceData).solutionSuggestions.length =
      facts.length ∧
    (runAnalysis oracles facts traceData).artifactSignals.all
      (fun s => s.isSome == traceData.isSome) = true := by
  cases traceData <;> cases facts <;>
    simp [runAnalysis, List.length_zip, List.all_map, correlateArtifacts_isSome]

/-! ## Claim C3 -/

theorem applyHeuristics_nav (input : ActionSynthesizerInput)
    (h : input.failureCategory.category = Category.navigation_error) :
    applyHeuristics input = some rule1Diagnosis := by
  simp [applyHeuristics, h, rule1Diagnosis]

theorem synthesizeAction_ok (input : ActionSynthesizerInput)
    (v : FinalDiagnosis) :
    synthesizeAction (fun _ => Except.ok v) input = v := by
  simp [synthesizeAction]

/-- Claim C3 counterexample: for the failure fact whose error text is
exactly `net::ERR_CONNECTION_REFUSED`, pattern matching scores
`navigation_error` at only `0.4 < 0.8`; classification therefore consults
the reasoning capability (and returns whatever it says), and action
synthesis likewise returns the reasoning capability's verdict rather than
deciding from rule 1 alone. -/
theorem claim_C3_counterexample :
    (applyPatternMatching c3Facts).map
      (fun r => (r.category, r.confidence)) =
      some (Category.navigation_error, 2/5) ∧
    ((2 : ℚ)/5 < 0.8) ∧
    classifyFailure c3LLM c3Facts =
      ⟨Category.unknown, 1, strOf "llm answer"⟩ ∧
    synthesizeAction
      (fun _ => Except.ok ⟨Verdict.unclear, strOf "a", Urgency.low, strOf "b"⟩)
      c3ActionInput =
      ⟨Verdict.unclear, strOf "a", Urgency.low, strOf "b"⟩ := by
  refine ⟨by decide, by norm_num, by decide, ?_⟩
  exact synthesizeAction_ok c3ActionInput _

/-- Claim C3, amended: the error text `net::ERR_CONNECTION_REFUSED` matches
exactly the two navigation pattern rules `/net::err/i` and
`/connection.*refused/i`, scoring `navigation_error` at `0.4`, which is
below both the high-confidence and hint bands, so classification defers to
the reasoning capability without a hint; whenever the assigned category is
`navigation_error`, the action-synthesis heuristic rule 1 yields verdict
`app_issue` with urgency `high`, and `synthesizeAction` returns exactly that
diagnosis whenever the reasoning capability fails — but the capability is
still invoked (its successful answer is always returned), because the
high-confidence early return compares a `confidence` field absent from
`FinalDiagnosis`. -/
theorem claim_C3_amended :
    applyPatternMatching c3Facts =
      some ⟨Category.navigation_error, 2/5,
        [strOf "/net::err/i", strOf "/connection.*refused/i"]⟩ ∧
    (∀ llm, classifyFailure llm c3Facts = classifyWithLLM llm none) ∧
    (∀ input : ActionSynthesizerInput,
      input.failureCategory.category = Category.navigation_error →
      applyHeuristics input = some rule1Diagnosis) ∧
    (∀ (input : ActionSynthesizerInput) (e : Str),
      input.failureCategory.category = Category.navigation_error →
      synthesizeAction (fun _ => Except.error e) input = rule1Diagnosis) ∧
    (∀ (input : ActionSynthesizerInput) (v : FinalDiagnosis),
      synthesizeAction (fun _ => Except.ok v) input = v) := by
  have hpat : applyPatternMatching c3Facts =
      some ⟨Category.navigation_error, 2/5,
        [strOf "/net::err/i", strOf "/connection.*refused/i"]⟩ := by decide
  refine ⟨hpat, ?_, applyHeuristics_nav, ?_, synthesizeAction_ok⟩
  · intro llm
    simp [classifyFailure, hpat, isHighConfidence, isMediumConfidence]
    norm_num
  · intro input e h
    simp [synthesizeAction, applyHeuristics_nav input h]

/-- Claim C3 witness: the amended theorem applied at the concrete
navigation-category input and a failing reasoning capability. -/
theorem claim_C3_amended_witness :
    applyHeuristics c3ActionInput = some rule1Diagnosis ∧
    synthesizeAction (fun _ => Except.error (strOf "down")) c3ActionInput =
      rule1Diagnosis ∧
    classifyFailure c3LLM c3Facts = classifyWithLLM c3LLM none := by
  refine ⟨claim_C3_amended.2.2.1 c3ActionInput rfl,
    claim_C3_amended.2.2.2.1 c3ActionInput (strOf "down") rfl,
    claim_C3_amended.2.1 c3LLM⟩

/-! ## Claim C4 -/

theorem foldl_best_mem (l : List PatternCandidate) (a : PatternCandidate) :
    l.foldl (fun best cur => if cur.score > best.score then cur else best) a = a ∨
      l.foldl (fun best cur => if cur.score > best.score then cur else best) a ∈ l := by
  induction l generalizing a with
  | nil => exact Or.inl rfl
  | cons c t ih =>
      simp only [List.foldl_cons]
      rcases ih (if c.score > a.score then c else a) with h | h
      · rw [h]
        by_cases hc : c.score > a.score <;> simp [hc]
      · exact Or.inr (List.mem_cons_of_mem c h)

theorem foldl_best_ge (l : List PatternCandidate) (a : PatternCandidate) :
    a.score ≤
      (l.foldl (fun best cur => if cur.score > best.score then cur else best) a).score ∧
    ∀ c ∈ l,
      c.score ≤
        (l.foldl (fun best cur => if cur.score > best.score then cur else best) a).score := by
  induction l generalizing a with
  | nil => exact ⟨le_refl _, by simp⟩
  | cons c t ih =>
      simp only [List.foldl_cons]
      obtain ⟨h1, h2⟩ := ih (if c.score > a.score then c else a)
      constructor
      · refine le_trans ?_ h1
        by_cases hc : c.score > a.score <;> simp [hc]
        exact le_of_lt hc
      · intro d hd
        rcases List.mem_cons.mp hd with rfl | hd
        · refine le_trans ?_ h1
          by_cases hc : d.score > a.score <;> simp [hc]
          exact le_of_not_lt hc
        · exact h2 d hd

theorem bestCandidate_spec (l : List PatternCandidate) (b : PatternCandidate)
    (h : bestCandidate l = some b) :
    b ∈ l ∧ ∀ c ∈ l, c.score ≤ b.score := by
  cases l with
  | nil => simp [bestCandidate] at h
  | cons a t =>
      simp only [bestCandidate, Option.some.injEq] at h
      subst h
      constructor
      · rcases foldl_best_mem t a with h | h
        · rw [h]; exact List.mem_cons_self a t
        · exact List.mem_cons_of_mem a h
      · intro c hc
        rcases List.mem_cons.mp hc with rfl | hc
        · exact (foldl_best_ge t c).1
        · exact (foldl_best_ge t a).2 c hc

/-- Claim C4: `applyPatternMatching` returns the highest-scoring candidate
with confidence capped at `0.95`; classification returns it outright at
confidence at least `0.8`, consults the reasoning capability with the
matched category as hint in `[0.5, 0.8)`, and consults it without a hint
below `0.5` or when no pattern matched. -/
theorem claim_C4_threshold_dispatch (facts : TestFailureFacts)
    (llm : Option Category → Except Str FailureCategory) :
    (∀ pr, applyPatternMatching facts = some pr →
      pr.confidence ≤ 0.95 ∧
      ∃ c ∈ patternCandidates facts, c.category = pr.category ∧
        pr.confidence = min c.score 0.95 ∧
        ∀ d ∈ patternCandidates facts, d.score ≤ c.score) ∧
    (∀ pr, applyPatternMatching facts = some pr →
      isHighConfidence pr = true →
      classifyFailure llm facts =
        ⟨pr.category, pr.confidence, generatePatternReasoning facts pr⟩) ∧
    (∀ pr, applyPatternMatching facts = some pr →
      isHighConfidence pr = false → isMediumConfidence pr = true →
      classifyFailure llm facts = classifyWithLLM llm (some pr.category)) ∧
    (∀ pr, applyPatternMatching facts = some pr →
      isHighConfidence pr = false → isMediumConfidence pr = false →
      classifyFailure llm facts = classifyWithLLM llm none) ∧
    (applyPatternMatching facts = none →
      classifyFailure llm facts = classifyWithLLM llm none) := by
  refine ⟨?_, ?_, ?_, ?_, ?_⟩
  · intro pr hpr
    unfold applyPatternMatching at hpr
    cases hb : bestCandidate (patternCandidates facts) with
    | none => rw [hb] at hpr; exact absurd hpr (by simp)
    | some b =>
        rw [hb] at hpr
        obtain ⟨hmem, hmax⟩ := bestCandidate_spec _ _ hb
        simp only [Option.some.injEq] at hpr
        subst hpr
        exact ⟨min_le_right _ _, b, hmem, rfl, rfl, hmax⟩
  · intro pr hpr hh
    simp [classifyFailure, hpr, hh]
  · intro pr hpr hh hm
    simp [classifyFailure, hpr, hh, hm]
  · intro pr hpr hh hm
    simp [classifyFailure, hpr, hh, hm]
  · intro h
    simp [classifyFailure, h]

/-- Claim C4 witness: at a failure scoring `navigation_error` at `0.6`
(medium band), classification consults the reasoning capability with the
matched category as hint. -/
theorem claim_C4_witness :
    classifyFailure c4LLM c4Facts =
      classifyWithLLM c4LLM (some Category.navigation_error) :=
  (claim_C4_threshold_dispatch c4Facts c4LLM).2.2.1
    ⟨Category.navigation_error, 3/5,
      [strOf "/page\\.goto/i", strOf "/net::err/i",
        strOf "/connection.*refused/i"]⟩
    (by decide) (by decide) (by decide)

/-! ## Claim C5 -/

/-- Claim C5: for each of the Classification, Correlation,
Selector-Heuristics, Action-Synthesis and Solution-Synthesis stages, an
injected reasoning-capability failure yields the stage's defined fallback
value — the heuristic/template result where one exists, else the
conservative sentinel carrying the error text (classification degrades to
`unknown` with confidence `0.0`; solution synthesis to its template result
or `null`) — and never a propagated exception (each stage is a total
function of the injected outcome). -/
theorem claim_C5_fallback_never_throws (e : Str) :
    (∀ hint, classifyWithLLM (fun _ => Except.error e) hint =
      ⟨Category.unknown, 0, strOf "Failed to classify: " ++ e⟩) ∧
    (∀ facts,
      (applyPatternMatching facts).all (fun pr => !isHighConfidence pr) = true →
      classifyFailure (fun _ => Except.error e) facts =
        ⟨Category.unknown, 0, strOf "Failed to classify: " ++ e⟩) ∧
    (∀ input : SignalSynthesisInput,
      synthesizeSignals (Except.error e) input =
        ⟨(match input.elementVisibility with
          | none => strOf "unknown"
          | some v =>
              if !v.elemExists then strOf "element missing"
              else if !v.visible then strOf "element hidden"
              else strOf "element visible"),
         input.pageLoadState.state,
         (let bf := input.pageLoadState.networkErrors ++
            input.blockingElements.map (fun b => b.description) ++
            (match input.screenshotAnalysis with
             | some s => s.blockingElements
             | none => [])
          if bf.length > 0 then bf
          else [strOf "No blocking factors detected"])⟩) ∧
    (correlateArtifacts true (Except.error e) =
      some ⟨strOf "unknown", strOf "unknown",
        [strOf "Error analyzing artifacts: " ++ e]⟩) ∧
    (∀ sinput : SynthesisInput,
      synthesizeSelectorAnalysis (fun _ => Except.error e) sinput =
        ⟨sinput.qualityAnalysis.qualityRating,
          sinput.qualityAnalysis.qualityScore,
          sinput.qualityAnalysis.issues,
          jsOrStr (sinput.selectorSuggestion.map
            (fun s => s.suggestedSelector)) none,
          jsOrStr (sinput.selectorSuggestion.map (fun s => s.reason)) none,
          jsQOr (sinput.selectorSuggestion.map (fun s => s.confidence)) 0.7⟩) ∧
    (∀ input : ActionSynthesizerInput,
      synthesizeAction (fun _ => Except.error e) input =
        (applyHeuristics input).getD
          ⟨Verdict.unclear, strOf "review failure details manually",
            Urgency.low, strOf "Unable to synthesize diagnosis: " ++ e⟩) ∧
    (∀ (extractSel : Str → Option ExtractedSelector)
      (extractFullLoc : Str → Option Str) (input : SolutionSuggesterInput),
      suggestSolution (fun _ _ => Except.error e) extractSel extractFullLoc
        input = applySolutionTemplates extractSel extractFullLoc input) := by
  refine ⟨fun hint => rfl, ?_, fun input => rfl, rfl, fun sinput => rfl, ?_, ?_⟩
  · intro facts h
    cases hap : applyPatternMatching facts with
    | none => simp [classifyFailure, hap, classifyWithLLM]
    | some pr =>
        rw [hap] at h
        simp only [Option.all_some, Bool.not_eq_true'] at h
        by_cases hm : isMediumConfidence pr = true <;>
          simp [classifyFailure, hap, h, hm, classifyWithLLM]
  · intro input
    cases h : applyHeuristics input <;> simp [synthesizeAction, h]
  · intro extractSel extractFullLoc input
    unfold suggestSolution
    cases h : applySolutionTemplates extractSel extractFullLoc input with
    | none => simp
    | some t => by_cases hc : t.confidence ≥ 0.8 <;> simp [hc]

/-- Claim C5 witness: the fallback theorem applied at a failure with no
pattern match and a failing reasoning capability. -/
theorem claim_C5_witness :
    classifyFailure (fun _ => Except.error (strOf "provider down")) c5Facts =
      ⟨Category.unknown, 0, strOf "Failed to classify: " ++ strOf "provider down"⟩ ∧
    synthesizeAction (fun _ => Except.error (strOf "provider down"))
      c5ActionInput =
      (applyHeuristics c5ActionInput).getD
        ⟨Verdict.unclear, strOf "review failure details manually", Urgency.low,
          strOf "Unable to synthesize diagnosis: " ++ strOf "provider down"⟩ ∧
    suggestSolution (fun _ _ => Except.error (strOf "provider down"))
      (fun _ => none) (fun _ => none) c5SolutionInput =
      applySolutionTemplates (fun _ => none) (fun _ => none) c5SolutionInput :=
  ⟨(claim_C5_fallback_never_throws (strOf "provider down")).2.1 c5Facts
      (by decide),
    (claim_C5_fallback_never_throws (strOf "provider down")).2.2.2.2.2.1
      c5ActionInput,
    (claim_C5_fallback_never_throws (strOf "provider down")).2.2.2.2.2.2
      (fun _ => none) (fun _ => none) c5SolutionInput⟩

/-! ## Claim C6 -/

/-- Claim C6 counterexample: a failure whose error text mentions `locator`
(so the claimed gate passes) but which neither pipeline nor agent gate lets
through — the pipeline gate only inspects the failed-step text (for
`selector`/`locator`) and the correlation uiState, and the agent gate only
checks the error text for `element`/`selector` — so the stage never runs
and the run returns `null` at that index. -/
theorem claim_C6_counterexample :
    claimedSelectorGate c6Facts c6Cat = true ∧
    pipelineSelectorGate c6Facts c6Cat none = false ∧
    selectorAgentGate c6Facts c6Cat = false ∧
    (runAnalysis c6Oracles [c6Facts] none).selectorAnalyses = [none] ∧
    (runAnalysis c6Oracles [c6Facts] none).failureCategories =
      [⟨Category.unknown, 0, strOf "Failed to classify: " ++ strOf "down"⟩] := by
  refine ⟨by decide, by decide, by decide, by decide, by decide⟩

/-- Claim C6, amended: in the pipeline the stage is invoked iff the category
is `selector_not_found`, correlation reported uiState `element missing`, or
the failed-step text mentions `selector`/`locator`; the stage itself
additionally requires the category, a failed-step mention of
`selector`/`locator`, or an error-text mention of `element`/`selector`; when
the gates pass, the stage analyses the extracted selector, and when no
selector can be extracted from the failed step, the error text, or the
trace's failing action, it returns `null` rather than an error. -/
theorem claim_C6_amended :
    (∀ (extractSel : Str → Option ExtractedSelector)
      (suggestSel : ExtractedSelector → DOMSnapshot → Option SelectorSuggestionR)
      (llm : SynthesisInput → Except Str SelectorAnalysis)
      (input : SelectorHeuristicsInput),
      selectorAgentGate input.failureFacts input.failureCategory = false →
      analyzeSelectorHeuristics extractSel suggestSel llm input = none) ∧
    (∀ (extractSel : Str → Option ExtractedSelector)
      (suggestSel : ExtractedSelector → DOMSnapshot → Option SelectorSuggestionR)
      (llm : SynthesisInput → Except Str SelectorAnalysis)
      (input : SelectorHeuristicsInput),
      extractSel input.failureFacts.failedStep = none →
      extractSel input.failureFacts.error = none →
      jsTruthyStr (traceActionSelector input.failedAction) = false →
      analyzeSelectorHeuristics extractSel suggestSel llm input = none) ∧
    (∀ (extractSel : Str → Option ExtractedSelector)
      (suggestSel : ExtractedSelector → DOMSnapshot → Option SelectorSuggestionR)
      (llm : SynthesisInput → Except Str SelectorAnalysis)
      (input : SelectorHeuristicsInput) (es : ExtractedSelector),
      selectorAgentGate input.failureFacts input.failureCategory = true →
      extractSel input.failureFacts.failedStep = some es →
      analyzeSelectorHeuristics extractSel suggestSel llm input =
        some (synthesizeSelectorAnalysis llm
          ⟨es,
            analyzeSelectorQuality es (input.domSnapshot.map (fun d => d.html)),
            (match input.domSnapshot with
             | some d => suggestSel es d
             | none => none),
            input.failureFacts, input.failureCategory⟩)) := by
  refine ⟨?_, ?_, ?_⟩
  · intro extractSel suggestSel llm input h
    simp [analyzeSelectorHeuristics, h]
  · intro extractSel suggestSel llm input h1 h2 h3
    by_cases hg : selectorAgentGate input.failureFacts input.failureCategory
    · cases hfa : input.failedAction with
      | none =>
          simp [analyzeSelectorHeuristics, hg, h1, h2, hfa, Option.orElse]
      | some fa =>
          cases ha : fa.action with
          | none =>
              simp [analyzeSelectorHeuristics, hg, h1, h2, hfa, ha,
                Option.orElse]
          | some a =>
              cases hs : a.selector with
              | none =>
                  simp [analyzeSelectorHeuristics, hg, h1, h2, hfa, ha, hs,
                    Option.orElse]
              | some ts =>
                  simp only [traceActionSelector, jsTruthyStr, hfa, ha, hs,
                    Option.bind_some, Option.some_bind, ne_eq,
                    decide_not, Bool.not_eq_false, decide_eq_true_eq] at h3
                  have hts : ts = [] := by simpa using h3
                  simp [analyzeSelectorHeuristics, hg, h1, h2, hfa, ha, hs,
                    Option.orElse, hts]
    · simp [analyzeSelectorHeuristics, hg]
  · intro extractSel suggestSel llm input es hg hstep
    unfold analyzeSelectorHeuristics
    rw [hg, hstep]
    simp

/-- Claim C6 witness: the amended theorem applied at the gate-failing input
and at a gate-passing input whose selector cannot be extracted. -/
theorem claim_C6_witness :
    analyzeSelectorHeuristics (fun _ => none) (fun _ _ => none)
      (fun _ => Except.error (strOf "down")) ⟨c6Facts, c6Cat, none, none⟩ =
      none ∧
    analyzeSelectorHeuristics (fun _ => none) (fun _ _ => none)
      (fun _ => Except.error (strOf "down")) ⟨c6Facts2, c6Cat, none, none⟩ =
      none :=
  ⟨claim_C6_amended.1 _ _ _ _ (by decide),
    claim_C6_amended.2.1 _ _ _ _ rfl rfl (by decide)⟩

/-! ## Claim C7 -/

theorem pickLatest_none (l : List SnapshotEntry) :
    pickLatest l = none ↔ l = [] := by
  cases l with
  | nil => simp [pickLatest]
  | cons a rest =>
      constructor
      · intro h
        exfalso
        cases hr : pickLatest rest with
        | none => simp only [pickLatest, hr] at h; exact absurd h (by simp)
        | some b =>
            simp only [pickLatest, hr] at h
            by_cases hts : a.timestamp ≥ b.timestamp
            · rw [if_pos hts] at h; exact absurd h (by simp)
            · rw [if_neg hts] at h; exact absurd h (by simp)
      · intro h; exact absurd h (by simp)

theorem pickLatest_mem :
    ∀ (l : List SnapshotEntry) (s : SnapshotEntry), pickLatest l = some s → s ∈ l
  | [], s => by simp [pickLatest]
  | a :: rest, s => by
      intro h
      cases hr : pickLatest rest with
      | none =>
          simp only [pickLatest, hr] at h
          simp only [Option.some.injEq] at h
          subst h
          exact List.mem_cons_self a rest
      | some b =>
          simp only [pickLatest, hr] at h
          by_cases hts : a.timestamp ≥ b.timestamp
          · rw [if_pos hts] at h
            simp only [Option.some.injEq] at h
            subst h
            exact List.mem_cons_self a rest
          · rw [if_neg hts] at h
            simp only [Option.some.injEq] at h
            subst h
            exact List.mem_cons_of_mem a (pickLatest_mem rest b hr)

theorem pickLatest_max :
    ∀ (l : List SnapshotEntry) (s : SnapshotEntry), pickLatest l = some s →
      ∀ x ∈ l, x.timestamp ≤ s.timestamp
  | [], s => by simp [pickLatest]
  | a :: rest, s => by
      intro h x hx
      cases hr : pickLatest rest with
      | none =>
          simp only [pickLatest, hr] at h
          simp only [Option.some.injEq] at h
          subst h
          rcases List.mem_cons.mp hx with rfl | hx
          · exact le_refl _
          · exact absurd ((pickLatest_none rest).mp hr)
              (List.ne_nil_of_mem hx)
      | some b =>
          simp only [pickLatest, hr] at h
          have hrest := pickLatest_max rest b hr
          by_cases hts : a.timestamp ≥ b.timestamp
          · rw [if_pos hts] at h
            simp only [Option.some.injEq] at h
            subst h
            rcases List.mem_cons.mp hx with rfl | hx
            · exact le_refl _
            · exact le_trans (hrest x hx) hts
          · rw [if_neg hts] at h
            simp only [Option.some.injEq] at h
            subst h
            rcases List.mem_cons.mp hx with rfl | hx
            · exact le_of_not_le hts
            · exact hrest x hx

/-- Claim C7: `extractDOMSnapshot` returns `null` exactly when the trace has
no HTML-bearing snapshot; otherwise it returns an HTML-bearing snapshot that
either has the maximal timestamp among those not after `t`, or — when no
HTML-bearing snapshot is at or before `t` — the globally maximal
timestamp. -/
theorem claim_C7_nearest_snapshot (td : TraceData) (t : ℚ) :
    (extractDOMSnapshot td t = none ↔
      td.snapshots.filter htmlBearing = []) ∧
    (∀ d, extractDOMSnapshot td t = some d →
      ∃ s, s ∈ td.snapshots ∧ htmlBearing s = true ∧ d = toDOMSnapshot s ∧
        ((s.timestamp ≤ t ∧
          ∀ x ∈ td.snapshots, htmlBearing x = true → x.timestamp ≤ t →
            x.timestamp ≤ s.timestamp) ∨
         ((∀ x ∈ td.snapshots, htmlBearing x = true → ¬ x.timestamp ≤ t) ∧
          ∀ x ∈ td.snapshots, htmlBearing x = true →
            x.timestamp ≤ s.timestamp))) := by
  constructor
  · simp only [extractDOMSnapshot]
    cases hq : pickLatest (td.snapshots.filter
        (fun s => decide (s.timestamp ≤ t) && htmlBearing s)) with
    | some s =>
        simp only [hq]
        constructor
        · intro h; exact absurd h (by simp)
        · intro hb
          exfalso
          have hs := pickLatest_mem _ _ hq
          have hmf := List.mem_filter.mp hs
          have hbear : s ∈ td.snapshots.filter htmlBearing :=
            List.mem_filter.mpr ⟨hmf.1, by
              have h2 := hmf.2
              simp only [Bool.and_eq_true] at h2
              exact h2.2⟩
          rw [hb] at hbear
          exact List.not_mem_nil s hbear
    | none =>
        simp only [hq]
        cases hb : pickLatest (td.snapshots.filter htmlBearing) with
        | some s =>
            simp only [hb]
            constructor
            · intro h; exact absurd h (by simp)
            · intro hnil
              exfalso
              rw [hnil] at hb
              simp [pickLatest] at hb
        | none =>
            simp only [hb]
            simp [(pickLatest_none _).mp hb]
  · intro d hd
    simp only [extractDOMSnapshot] at hd
    cases hq : pickLatest (td.snapshots.filter
        (fun s => decide (s.timestamp ≤ t) && htmlBearing s)) with
    | some s =>
        rw [hq] at hd
        simp only [Option.some.injEq] at hd
        have hs := pickLatest_mem _ _ hq
        have hmf := List.mem_filter.mp hs
        have hcond := hmf.2
        simp only [Bool.and_eq_true, decide_eq_true_eq] at hcond
        refine ⟨s, hmf.1, hcond.2, hd.symm, Or.inl ⟨hcond.1, ?_⟩⟩
        intro x hx hbx hxt
        exact pickLatest_max _ _ hq x
          (List.mem_filter.mpr ⟨hx, by simp [hbx, hxt]⟩)
    | none =>
        rw [hq] at hd
        have hqnil := (pickLatest_none _).mp hq
        have hnoq : ∀ x ∈ td.snapshots, htmlBearing x = true →
            ¬ x.timestamp ≤ t := by
          intro x hx hbx hxt
          have hmem : x ∈ td.snapshots.filter
              (fun s => decide (s.timestamp ≤ t) && htmlBearing s) :=
            List.mem_filter.mpr ⟨hx, by simp [hbx, hxt]⟩
          rw [hqnil] at hmem
          exact List.not_mem_nil x hmem
        cases hb : pickLatest (td.snapshots.filter htmlBearing) with
        | some s =>
            rw [hb] at hd
            simp only [Option.some.injEq] at hd
            have hs := pickLatest_mem _ _ hb
            have hmf := List.mem_filter.mp hs
            refine ⟨s, hmf.1, hmf.2, hd.symm, Or.inr ⟨hnoq, ?_⟩⟩
            intro x hx hbx
            exact pickLatest_max _ _ hb x (List.mem_filter.mpr ⟨hx, hbx⟩)
        | none =>
            rw [hb] at hd
            exact absurd hd (by simp)

/-- Claim C7 witness: at the concrete trace and time `15`, the snapshot with
timestamp `10` is returned and satisfies the nearest-not-after property. -/
theorem claim_C7_witness :
    extractDOMSnapshot c7Trace 15 =
      some ⟨strOf "<html>1</html>", 10, strOf "u1", ⟨1280, 720⟩⟩ ∧
    ∃ s, s ∈ c7Trace.snapshots ∧ htmlBearing s = true ∧
      (⟨strOf "<html>1</html>", 10, strOf "u1", ⟨1280, 720⟩⟩ : DOMSnapshot) =
        toDOMSnapshot s ∧
      ((s.timestamp ≤ 15 ∧
        ∀ x ∈ c7Trace.snapshots, htmlBearing x = true → x.timestamp ≤ 15 →
          x.timestamp ≤ s.timestamp) ∨
       ((∀ x ∈ c7Trace.snapshots, htmlBearing x = true → ¬ x.timestamp ≤ 15) ∧
        ∀ x ∈ c7Trace.snapshots, htmlBearing x = true →
          x.timestamp ≤ s.timestamp)) :=
  ⟨by decide, (claim_C7_nearest_snapshot c7Trace 15).2 _ (by decide)⟩

/-! ## Claim C8 -/

theorem foldl_sim_floor (exp : Str) :
    ∀ (l : List Str) (acc : Option SimilarText × ℚ),
      (3 : ℚ)/10 ≤ acc.2 →
      (∀ x, acc.1 = some x → acc.2 = x.similarity ∧ (3 : ℚ)/10 < x.similarity) →
      ∀ x,
        (l.foldl (fun (best : Option SimilarText × ℚ) a =>
          let similarity := calculateSimilarity exp a
          if similarity > best.2 then (some ⟨a, similarity⟩, similarity)
          else best) acc).1 = some x →
        (3 : ℚ)/10 < x.similarity
  | [], acc => by
      intro hfloor hinv x hx
      exact ((hinv x hx).2)
  | a :: l, acc => by
      intro hfloor hinv x
      simp only [List.foldl_cons]
      by_cases hgt : calculateSimilarity exp a > acc.2
      · refine foldl_sim_floor exp l _ ?_ ?_ x
        · simp only [hgt, if_pos]
          exact le_of_lt (lt_of_le_of_lt hfloor hgt)
        · intro y hy
          simp only [hgt, if_pos] at hy ⊢
          simp only [Option.some.injEq] at hy
          subst hy
          exact ⟨rfl, lt_of_le_of_lt hfloor hgt⟩
      · refine foldl_sim_floor exp l _ ?_ ?_ x <;>
          simp only [if_neg hgt]
        · exact hfloor
        · exact hinv

/-- Claim C8: `findSimilarText` assigns similarity `1.0` on an exact
(lower-cased, trimmed) match, `0.8` on substring containment in either
direction, and otherwise returns a fuzzy match only when its blended score
strictly exceeds the `0.3` floor; in particular, for expected text
`Thank you for orderRING!` and actual text `Thank you for your order!` it
returns that actual string with similarity `119/200 > 0.3`. -/
theorem claim_C8_find_similar_text :
    (∀ (e : Str) (as : List Str) (a : Str), e ≠ [] → a ∈ as →
      trimStr (lowerStr a) = trimStr (lowerStr e) →
      ∃ r, findSimilarText e as = some r ∧ r.similarity = 1 ∧ r.text ∈ as ∧
        trimStr (lowerStr r.text) = trimStr (lowerStr e)) ∧
    (∀ (e : Str) (as : List Str) (a : Str), e ≠ [] →
      as.find? (fun x => trimStr (lowerStr x) == trimStr (lowerStr e)) = none →
      a ∈ as →
      (hasSub (trimStr (lowerStr a)) (trimStr (lowerStr e)) ||
        hasSub (trimStr (lowerStr e)) (trimStr (lowerStr a))) = true →
      ∃ r, findSimilarText e as = some r ∧ r.similarity = 0.8 ∧ r.text ∈ as) ∧
    (∀ (e : Str) (as : List Str) (r : SimilarText),
      findSimilarText e as = some r →
      r.similarity = 1 ∨ r.similarity = 0.8 ∨ (3 : ℚ)/10 < r.similarity) ∧
    (findSimilarText c8Expected [c8Actual] = some ⟨c8Actual, 119/200⟩ ∧
      (3 : ℚ)/10 < 119/200) := by
  refine ⟨?_, ?_, ?_, by decide, by decide⟩
  · intro e as a he ha heq
    have hne : ¬(e = [] ∨ as.length = 0) := by
      rintro (h | h)
      · exact he h
      · exact absurd (List.length_eq_zero.mp h ▸ ha) (List.not_mem_nil a)
    have hfind : (as.find? (fun x =>
        trimStr (lowerStr x) == trimStr (lowerStr e))).isSome := by
      rw [List.find?_isSome]
      exact ⟨a, ha, by simp [heq]⟩
    obtain ⟨r0, hr0⟩ := Option.isSome_iff_exists.mp hfind
    refine ⟨⟨r0, 1⟩, ?_, rfl, List.mem_of_find?_eq_some hr0, ?_⟩
    · simp only [findSimilarText]
      rw [if_neg hne, hr0]
    · have := List.find?_some hr0
      simpa using this
  · intro e as a he hnone ha hcont
    have hne : ¬(e = [] ∨ as.length = 0) := by
      rintro (h | h)
      · exact he h
      · exact absurd (List.length_eq_zero.mp h ▸ ha) (List.not_mem_nil a)
    have hfind : (as.find? (fun x =>
        hasSub (trimStr (lowerStr x)) (trimStr (lowerStr e)) ||
          hasSub (trimStr (lowerStr e)) (trimStr (lowerStr x)))).isSome := by
      rw [List.find?_isSome]
      exact ⟨a, ha, hcont⟩
    obtain ⟨r0, hr0⟩ := Option.isSome_iff_exists.mp hfind
    refine ⟨⟨r0, 0.8⟩, ?_, rfl, List.mem_of_find?_eq_some hr0⟩
    simp only [findSimilarText]
    rw [if_neg hne, hnone, hr0]
  · intro e as r hr
    simp only [findSimilarText] at hr
    by_cases hne : e = [] ∨ as.length = 0
    · rw [if_pos hne] at hr
      exact absurd hr (by simp)
    · rw [if_neg hne] at hr
      cases h1 : as.find? (fun x =>
          trimStr (lowerStr x) == trimStr (lowerStr e)) with
      | some a =>
          rw [h1] at hr
          simp only [Option.some.injEq] at hr
          subst hr
          exact Or.inl rfl
      | none =>
          rw [h1] at hr
          cases h2 : as.find? (fun x =>
              hasSub (trimStr (lowerStr x)) (trimStr (lowerStr e)) ||
                hasSub (trimStr (lowerStr e)) (trimStr (lowerStr x))) with
          | some a =>
              rw [h2] at hr
              simp only [Option.some.injEq] at hr
              subst hr
              exact Or.inr (Or.inl rfl)
          | none =>
              rw [h2] at hr
              refine Or.inr (Or.inr ?_)
              have hr2 : (List.foldl (fun (best : Option SimilarText × ℚ) a =>
                  let similarity := calculateSimilarity (trimStr (lowerStr e)) a
                  if similarity > best.2 then (some ⟨a, similarity⟩, similarity)
                  else best) (none, 0.3) as).1 = some r := by
                simpa using hr
              exact foldl_sim_floor (trimStr (lowerStr e)) as (none, 0.3)
                (by norm_num) (by simp) r hr2

/-- Claim C8 witness: the theorem applied at the concrete mismatch scenario
and at an exact-match input. -/
theorem claim_C8_witness :
    (∃ r, findSimilarText (strOf "Hello!") [strOf " hello! "] = some r ∧
      r.similarity = 1 ∧ r.text ∈ [strOf " hello! "] ∧
      trimStr (lowerStr r.text) = trimStr (lowerStr (strOf "Hello!"))) ∧
    (findSimilarText c8Expected [c8Actual] = some ⟨c8Actual, 119/200⟩ →
      (119 : ℚ)/200 = 1 ∨ (119 : ℚ)/200 = 0.8 ∨ (3 : ℚ)/10 < 119/200) := by
  constructor
  · exact claim_C8_find_similar_text.1 (strOf "Hello!") [strOf " hello! "]
      (strOf " hello! ") (by decide) (by decide) (by decide)
  · intro h
    exact claim_C8_find_similar_text.2.2.1 c8Expected [c8Actual]
      ⟨c8Actual, 119/200⟩ h

/-! ## Claim C9 -/

/-- Claim C9: under `analyzeSelectorQuality` the CSS selector
`button[type="submit"]` scores strictly higher (`0.7`) than the CSS selector
`div > div > div > span:nth-child(3)` (`0.3`). -/
theorem claim_C9_selector_quality :
    (analyzeSelectorQuality c9Nested none).qualityScore <
      (analyzeSelectorQuality c9Button none).qualityScore ∧
    (analyzeSelectorQuality c9Button none).qualityScore = 7/10 ∧
    (analyzeSelectorQuality c9Nested none).qualityScore = 3/10 := by
  refine ⟨by decide, by decide, by decide⟩

/-! ## Claim C10 -/

theorem timeout_candidate_mem (facts : TestFailureFacts)
    (htv : hasTimeoutValue facts = true) :
    (⟨Category.timeout,
      ((timeoutMatches (combinedText facts)).length : ℚ) * 0.2 + 0.3,
      timeoutMatches (combinedText facts)⟩ : PatternCandidate) ∈
      patternCandidates facts := by
  unfold patternCandidates
  simp only [htv, Bool.or_true, if_true]
  simp [List.mem_append]

theorem applyPatternMatching_ne_none (facts : TestFailureFacts)
    (h : patternCandidates facts ≠ []) : applyPatternMatching facts ≠ none := by
  unfold applyPatternMatching
  cases hb : bestCandidate (patternCandidates facts) with
  | none =>
      cases hpc : patternCandidates facts with
      | nil => exact absurd hpc h
      | cons a t => rw [hpc] at hb; simp [bestCandidate] at hb
  | some b => simp

/-- Claim C10 counterexample: a failed result with a recorded duration of
`0` yields a `FailureFact` whose `timeout` field is `undefined`
(`result.duration || undefined` treats `0` as falsy), and with no matching
text pattern the `timeout` category is not among the scored candidates —
`applyPatternMatching` even returns `null`. -/
theorem claim_C10_counterexample :
    c10Result.duration = some 0 ∧
    parsePlaywrightReport c10LocOf c10StackOf c10Report = [c10Fact] ∧
    c10Fact.timeout = none ∧
    patternCandidates c10Fact = [] ∧
    applyPatternMatching c10Fact = none := by
  refine ⟨rfl, ?_, rfl, by decide, by decide⟩
  simp [parsePlaywrightReport, c10Report, traverseSuiteForFailures,
    specFailures, c10Result, resultIsFailedStatus, extractFailureFacts,
    resultHasDirectError, factOf, c10Fact, findFailingStep, jsOrNat, jsStrOr,
    jsOrStr, c10LocOf, c10StackOf, strOf]

/-- Claim C10, amended: for every `FailureFact` whose `timeout` field is
defined and positive, `applyPatternMatching` never returns `null` and the
`timeout` category is among the scored candidates with score at least `0.3`
even when no timeout-related text pattern matches; and the parser sets that
field to the result's duration whenever the recorded duration is positive
(a zero duration is dropped by JavaScript truthiness). -/
theorem claim_C10_amended :
    (∀ (facts : TestFailureFacts) (t : Nat), facts.timeout = some t → 0 < t →
      applyPatternMatching facts ≠ none ∧
      ∃ c ∈ patternCandidates facts, c.category = Category.timeout ∧
        (3 : ℚ)/10 ≤ c.score) ∧
    (∀ (locOf : Str → FileLocation) (stackOf : Str → List Str)
      (sp : PSpec) (te : PTest) (re : PResult) (d : Nat),
      re.duration = some d → 0 < d →
      (factOf locOf stackOf sp te re).timeout = some d) := by
  constructor
  · intro facts t ht hpos
    have htv : hasTimeoutValue facts = true := by
      simp [hasTimeoutValue, ht, hpos]
    have hmem := timeout_candidate_mem facts htv
    have hscore : (3 : ℚ)/10 ≤
        ((timeoutMatches (combinedText facts)).length : ℚ) * 0.2 + 0.3 := by
      have hnn : (0 : ℚ) ≤
          ((timeoutMatches (combinedText facts)).length : ℚ) * 0.2 := by
        positivity
      norm_num
    refine ⟨applyPatternMatching_ne_none facts (List.ne_nil_of_mem hmem),
      ⟨_, hmem, rfl, hscore⟩⟩
  · intro locOf stackOf sp te re d hd hpos
    have hne : d ≠ 0 := Nat.pos_iff_ne_zero.mp hpos
    simp [factOf, jsOrNat, hd, hne]

/-- Claim C10 witness: the amended theorem applied at a failure with a
positive recorded timeout and no timeout-flavoured text. -/
theorem claim_C10_witness :
    applyPatternMatching c10PosFact ≠ none ∧
    ∃ c ∈ patternCandidates c10PosFact, c.category = Category.timeout ∧
      (3 : ℚ)/10 ≤ c.score :=
  claim_C10_amended.1 c10PosFact 5000 rfl (by decide)

end PWSniffer
